import Mathlib

/-!
Verification of the `url_downloader_bot` repository.

The development shallowly embeds the bot's core logic from the Python
sources:

* `src/bot.py` — the function-based revision: `handle_url`,
  `button_callback`, `handle_filename`, `process_download`,
  `download_file`, plus the module-level `user_data` session dictionary.
* `src/url_downloader_bot.py` — the class-based revision; for attributes
  defined several times in the class body, Python keeps the *last*
  definition, so the embedding follows the last `download_file`
  (lines 483-541) and the last `download_and_send` (lines 351-425).
* `src/config.py` — the `Config` constants.

Modelling conventions:

* Effectful Python code runs in a monad `M` of explicit state passing
  plus string-labelled exceptions (`S → Except String α × S`); Python
  `try/except` is `pyTry`, `try/finally` is `pyTryFinally`, and the
  `with` statement is `pyWith`.
* The state `S` records the session dictionary, the files on disk with
  their byte counts, an append-only log of every path opened for
  writing, a count of open (explicitly unreleased) read handles, a log
  of user-visible messages, an oracle of success bits for the Telegram
  API calls (an exhausted oracle means every later call succeeds), and
  a sequence of wall-clock readings.
* Wall-clock readings (`time.time()`) are modelled in whole
  milliseconds (`Int`), so the source's `0.5`-second update throttle is
  the integer comparison `now - last ≥ 500`; speeds are converted back
  to bytes per second as rationals.
* Python floats are modelled as `ℚ`; `int(x)` is truncation toward
  zero (`pyInt`); a Python division is `pyDivQ`, raising
  `ZeroDivisionError` exactly when the divisor is zero.
* The HTTP GET performed by `aiohttp` is modelled by an
  `HttpResponse` value (status, optional `content-length` header, the
  delivered chunk sizes, and a flag for a mid-stream network fault);
  the numeric byte/speed/ETA renderings inside status texts are
  elided from the display strings, which no claim reads.
* `str.isalnum` is modelled on its ASCII fragment
  (`Char.isAlphanum`); every claim is settled on ASCII inputs.
-/

namespace UrlBot

/-! ## Pure helpers: filenames and URLs -/

/-- Model of Python `str.startswith(p)` (defined on the character
lists so that concrete runs evaluate inside the kernel). -/
def strStartsWith (s p : String) : Bool :=
  s.data.take p.data.length == p.data

/-- Model of Python `str.strip()`: whitespace removed from both ends. -/
def pyStrip (s : String) : String :=
  String.mk
    (((s.data.dropWhile Char.isWhitespace).reverse.dropWhile
        Char.isWhitespace).reverse)

/-- Model of Python `os.path.basename`: everything after the last `/`
(`p[p.rfind('/')+1:]`). -/
def basename (p : String) : String :=
  String.mk ((p.data.reverse.takeWhile (fun c => c != '/')).reverse)

/-- Model of `urllib.parse.urlparse(url)` scheme stripping for the
`http`/`https` URLs the handlers feed it (they are only called after the
scheme check). -/
def urlAfterScheme (url : String) : String :=
  if strStartsWith url "http://" then String.mk (url.data.drop 7)
  else if strStartsWith url "https://" then String.mk (url.data.drop 8)
  else url

/-- Model of `urlparse(url).netloc`: the authority component, ending at
the first `/`, `?` or `#`. -/
def urlNetloc (url : String) : String :=
  String.mk ((urlAfterScheme url).data.takeWhile
    (fun c => c != '/' && c != '?' && c != '#'))

/-- Model of `urlparse(url).path`: from the end of the authority up to
the first `?` or `#`. -/
def urlPath (url : String) : String :=
  String.mk (((urlAfterScheme url).data.dropWhile
      (fun c => c != '/' && c != '?' && c != '#')).takeWhile
      (fun c => c != '?' && c != '#'))

/-- Default filename derivation of `bot.py` `handle_url` (lines
120-124): `os.path.basename(urlparse(url).path)`, falling back to
`"download"` when that is empty. -/
def default_filename (url : String) : String :=
  if basename (urlPath url) = "" then "download" else basename (urlPath url)

/-- Allowed-character test of the rename sanitizer in `bot.py`
`handle_filename` line 188: `c.isalnum() or c in '._- '`. -/
def allowedChar (c : Char) : Bool :=
  c.isAlphanum || c == '.' || c == '_' || c == '-' || c == ' '

/-- Rename sanitization of `bot.py` `handle_filename` line 188:
`''.join(c for c in new_name if c.isalnum() or c in '._- ')`. -/
def sanitize_filename (name : String) : String :=
  String.mk (name.data.filter allowedChar)

/-! ## Pure helpers: progress rendering -/

/-- Model of Python `int()` on a float: truncation toward zero. -/
def pyInt (q : ℚ) : ℤ :=
  if 0 ≤ q then ⌊q⌋ else -⌊-q⌋

/-- Concatenation of `k` copies of a string. -/
def strRepeatN (str : String) : Nat → String
  | 0 => ""
  | k + 1 => str ++ strRepeatN str k

/-- Model of Python string repetition `str * n`: a non-positive count
yields the empty string. -/
def pyStrRepeat (str : String) (n : ℤ) : String :=
  strRepeatN str n.toNat

/-- Filled segment count of the progress bar in `bot.py` line 82:
`int(progress / 10)`. -/
def filled_length (progress : ℚ) : ℤ :=
  pyInt (progress / 10)

/-- Progress bar of `bot.py` line 83:
`"■" * filled_length + "□" * (10 - filled_length)`. -/
def progress_bar (progress : ℚ) : String :=
  pyStrRepeat "■" (filled_length progress) ++
    pyStrRepeat "□" (10 - filled_length progress)

/-- The effective `URLDownloaderBot.create_progress_bar(current, total,
length=10)` (the last of its three identical definitions):
`"■" * int(length * current / total) + "□" * (length - int(length * current / total))`.
Callers pass a nonzero `total`; the divide-by-zero behaviour of the
transfer loop itself is modelled by `pyDivByTotal` below. -/
def create_progress_bar (current total : ℚ) (len : ℕ) : String :=
  pyStrRepeat "■" (pyInt ((len : ℚ) * current / total)) ++
    pyStrRepeat "□" ((len : ℤ) - pyInt ((len : ℚ) * current / total))

/-- Download status text of `bot.py` lines 86-92; the numeric rendering
of the byte counts, speed and ETA is elided (no claim reads it). -/
def dl_status_text (progress : ℚ) (speed eta : ℚ) : String :=
  let bar := progress_bar progress
  let p := toString progress
  let sp := toString speed
  let et := toString eta
  s!"Downloading: {p}%\n[{bar}]\nSpeed: {sp} B/sec\nETA: {et}s"

/-! ## Configuration (`src/config.py`) -/

/-- `Config.TG_MAX_FILE_SIZE = 4194304000` (the `~4GB limit` constant;
it is referenced nowhere else in the repository). -/
def TG_MAX_FILE_SIZE : Nat := 4194304000

/-- `Config.DOWNLOAD_LOCATION = "./DOWNLOADS"`. -/
def DOWNLOAD_LOCATION : String := "./DOWNLOADS"

/-! ## State -/

/-- One entry of the `user_data` session dictionary: `bot.py` stores
`{'url': ..., 'default_filename': ...}` and later may set
`'waiting_for_name' = True`; the absent key reads as false via
`.get('waiting_for_name')`. -/
structure Session where
  url : String
  defaultFilename : String
  waitingForName : Bool
deriving DecidableEq

/-- Model of the `aiohttp` GET response: HTTP status, the optional
`content-length` header, the body chunk sizes that
`iter_chunked(8192)` delivers, and whether a network fault interrupts
the stream after those chunks. -/
structure HttpResponse where
  status : Nat
  contentLength : Option Nat
  chunks : List Nat
  midStreamError : Bool
deriving DecidableEq

/-- The world state threaded through a run: the session store, the
files on disk (path to byte count), the append-only log of paths opened
for writing, the count of read handles opened and never explicitly
released, the success oracle for Telegram API calls (exhausted oracle:
all later calls succeed), the log of delivered user-visible texts, and
the remaining wall-clock readings in milliseconds. -/
structure S where
  store : List (String × Session)
  fs : List (String × Nat)
  written : List String
  openHandles : Nat
  msgOk : List Bool
  sent : List String
  clock : List Int
deriving DecidableEq

/-! ## The effect monad -/

/-- Effectful Python code: explicit state passing with string-labelled
exceptions. -/
def M (α : Type) : Type := S → Except String α × S

instance : Monad M where
  pure a := fun s => (Except.ok a, s)
  bind x f := fun s =>
    match x s with
    | (Except.ok a, s') => f a s'
    | (Except.error e, s') => (Except.error e, s')

/-- Raising a Python exception. -/
def throwM {α : Type} (e : String) : M α :=
  fun s => (Except.error e, s)

/-- Whether a run finished without an uncaught exception. -/
def resOk {α : Type} : Except String α × S → Bool
  | (Except.ok _, _) => true
  | (Except.error _, _) => false

/-- The uncaught exception of a run, when there is one. -/
def resErr {α : Type} : Except String α × S → Option String
  | (Except.ok _, _) => none
  | (Except.error e, _) => some e

/-- The Boolean result of a run, when it finished normally. -/
def resBool : Except String Bool × S → Option Bool
  | (Except.ok b, _) => some b
  | (Except.error _, _) => none

/-- Python `try/except Exception as e` with handler `h`. -/
def pyTry {α : Type} (x : M α) (h : String → M α) : M α :=
  fun s =>
    match x s with
    | (Except.ok a, s') => (Except.ok a, s')
    | (Except.error e, s') => h e s'

/-- Python `try/finally`: the cleanup block runs on every exit, and an
exception escaping the body is re-raised after it (an exception raised
by the cleanup block itself replaces the in-flight one, as in Python).
-/
def pyTryFinally {α : Type} (body : M α) (fin : M Unit) : M α :=
  fun s =>
    match body s with
    | (Except.ok a, s') =>
      match fin s' with
      | (Except.ok _, s'') => (Except.ok a, s'')
      | (Except.error e, s'') => (Except.error e, s'')
    | (Except.error e, s') =>
      match fin s' with
      | (Except.ok _, s'') => (Except.error e, s'')
      | (Except.error e', s'') => (Except.error e', s'')

/-- The Python `with` statement: acquire, then run the body with the
release guaranteed on every exit of the body. -/
def pyWith {α : Type} (acquire : M Unit) (release : M Unit) (body : M α) : M α :=
  fun s =>
    match acquire s with
    | (Except.ok _, s') => pyTryFinally body release s'
    | (Except.error e, s') => (Except.error e, s')

/-! ## Primitive effects -/

/-- Draw the next success bit for a Telegram API call; an exhausted
oracle means success. -/
def nextMsgOk : M Bool :=
  fun s =>
    match s.msgOk with
    | [] => (Except.ok true, s)
    | b :: rest => (Except.ok b, { s with msgOk := rest })

/-- A Telegram call that delivers a user-visible text
(`reply_text` / `edit_text`): it appends to the delivery log on
success and raises on failure. -/
def tgSend (txt : String) : M Unit := do
  let ok ← nextMsgOk
  if ok then
    fun s => (Except.ok (), { s with sent := s.sent ++ [txt] })
  else throwM "TelegramError"

/-- A Telegram call with no user-visible text
(`query.answer`, `message.delete`, `reply_document`). -/
def tgAction : M Unit := do
  let ok ← nextMsgOk
  if ok then pure () else throwM "TelegramError"

/-- Association-list update with replacement, the model of a Python
dict assignment `d[k] = v`. -/
def alInsert {β : Type} (k : String) (v : β) (l : List (String × β)) :
    List (String × β) :=
  (k, v) :: l.filter (fun e => e.1 != k)

/-- Association-list removal, the model of Python `del d[k]`. -/
def alErase {β : Type} (k : String) (l : List (String × β)) :
    List (String × β) :=
  l.filter (fun e => e.1 != k)

/-- Association-list lookup, the model of Python `d[k]` / `k in d`. -/
def alFind {β : Type} (k : String) : List (String × β) → Option β
  | [] => none
  | (k', v) :: rest => if k' = k then some v else alFind k rest

/-- Reading `user_data.get(chat_id)`. -/
def findSession (chatId : String) : M (Option Session) :=
  fun s => (Except.ok (alFind chatId s.store), s)

/-- Writing `user_data[chat_id] = {...}`. -/
def putSession (chatId : String) (sess : Session) : M Unit :=
  fun s => (Except.ok (), { s with store := alInsert chatId sess s.store })

/-- Deleting `del user_data[chat_id]`. -/
def eraseSession (chatId : String) : M Unit :=
  fun s => (Except.ok (), { s with store := alErase chatId s.store })

/-- Setting `user_data[chat_id]['waiting_for_name'] = True` (the entry
exists at every call site). -/
def setWaiting (chatId : String) : M Unit :=
  fun s =>
    match alFind chatId s.store with
    | some sess =>
      (Except.ok (),
        { s with store := alInsert chatId { sess with waitingForName := true } s.store })
    | none => (Except.ok (), s)

/-- A path whose final component is `.` or `..` names a directory, not
a regular file. -/
def isDirEntry (p : String) : Bool :=
  basename p == "." || basename p == ".."

/-- `os.path.exists`: true for files on disk and for the
ever-present directory entries `.` and `..`. -/
def pathExists (p : String) : M Bool :=
  fun s => (Except.ok (isDirEntry p || (alFind p s.fs).isSome), s)

/-- `open(p, 'wb')`: creating (or truncating) a regular file; opening a
directory entry (final component empty, `.` or `..`) raises, as POSIX
`open` does. A successful open is recorded in the write log. -/
def openWrite (p : String) : M Unit :=
  fun s =>
    if basename p == "" || basename p == "." || basename p == ".." then
      (Except.error "IsADirectoryError", s)
    else
      (Except.ok (),
        { s with fs := alInsert p 0 s.fs, written := s.written ++ [p] })

/-- `f.write(chunk)` on the file opened at `p`. -/
def writeChunk (p : String) (n : Nat) : M Unit :=
  fun s =>
    match alFind p s.fs with
    | some sz => (Except.ok (), { s with fs := alInsert p (sz + n) s.fs })
    | none => (Except.error "ValueError", s)

/-- `os.remove(p)`: unlinking a directory entry raises
`IsADirectoryError`, a missing path raises `FileNotFoundError`. -/
def removeFile (p : String) : M Unit :=
  fun s =>
    if isDirEntry p then (Except.error "IsADirectoryError", s)
    else
      match alFind p s.fs with
      | some _ => (Except.ok (), { s with fs := alErase p s.fs })
      | none => (Except.error "FileNotFoundError", s)

/-- `os.path.getsize(p)`. -/
def getSize (p : String) : M Nat :=
  fun s =>
    match alFind p s.fs with
    | some n => (Except.ok n, s)
    | none => (Except.error "FileNotFoundError", s)

/-- `open(p, 'rb')`: acquiring a read handle on an existing file. -/
def openRead (p : String) : M Unit :=
  fun s =>
    if (alFind p s.fs).isSome then
      (Except.ok (), { s with openHandles := s.openHandles + 1 })
    else (Except.error "FileNotFoundError", s)

/-- Releasing a read handle (the exit of a `with open(...)` block). -/
def closeHandle : M Unit :=
  fun s => (Except.ok (), { s with openHandles := s.openHandles - 1 })

/-- `time.time()`: the next wall-clock reading in milliseconds (an
exhausted sequence reads a large constant). -/
def timeNow : M Int :=
  fun s =>
    match s.clock with
    | [] => (Except.ok 1000000000, s)
    | t :: rest => (Except.ok t, { s with clock := rest })

/-- Python division `downloaded / total_size` of the progress
computation: `ZeroDivisionError` exactly when the total is zero. -/
def pyDivByTotal (d t : Nat) : M ℚ :=
  if t = 0 then throwM "ZeroDivisionError" else pure ((d : ℚ) / (t : ℚ))

/-- Python division `downloaded / (now - start_time)` of the speed
computation in `bot.py` line 78 (unguarded in the source):
`ZeroDivisionError` exactly when no time has elapsed. The elapsed span
is in milliseconds, the speed in bytes per second. -/
def pyDivBySpan (d : Nat) (spanMs : Int) : M ℚ :=
  if spanMs = 0 then throwM "ZeroDivisionError"
  else pure ((d : ℚ) * 1000 / (spanMs : ℚ))

/-! ## The function-based revision (`src/bot.py`) -/

/-- The chunk loop of `bot.py` `download_file` (lines 70-96):
`async for chunk in response.content.iter_chunked(8192)`, writing each
nonempty chunk, and on a throttled cadence (at least 0.5 s since the
last update) computing progress, speed and ETA and editing the status
message inside a `try/except: pass`. The Python `for` is the structural
recursion on the delivered chunk list. -/
def dl_loop (fp : String) (totalSize : Nat) (startTime : Int) :
    List Nat → Nat → Int → M Unit
  | [], _, _ => pure ()
  | chunk :: rest, downloaded, lastUpdate => do
    if chunk ≠ 0 then
      writeChunk fp chunk
      let downloaded := downloaded + chunk
      let now ← timeNow
      if now - lastUpdate ≥ 500 then
        let frac ← pyDivByTotal downloaded totalSize
        let progress := frac * 100
        let speed ← pyDivBySpan downloaded (now - startTime)
        let eta : ℚ :=
          if speed > 0 then ((totalSize : ℚ) - (downloaded : ℚ)) / speed else 0
        pyTry (tgSend (dl_status_text progress speed eta)) (fun _ => pure ())
        dl_loop fp totalSize startTime rest downloaded now
      else
        dl_loop fp totalSize startTime rest downloaded lastUpdate
    else
      dl_loop fp totalSize startTime rest downloaded lastUpdate

/-- The `try` block of `bot.py` `download_file` (lines 56-104). A
non-200 status edits a failure text and returns false; otherwise
`total_size = int(response.headers.get('content-length', 0))`, the file
is opened for writing and streamed through `dl_loop`; a mid-stream
network fault raises; on success the completion text is edited and true
is returned. -/
def download_file_body (url : String) (resp : HttpResponse)
    (filePath : String) : M Bool := do
  let startTime ← timeNow
  if resp.status ≠ 200 then
    let st := toString resp.status
    tgSend s!"Download failed with status {st}"
    pure false
  else do
    let totalSize := resp.contentLength.getD 0
    openWrite filePath
    dl_loop filePath totalSize startTime resp.chunks 0 0
    if resp.midStreamError then throwM "ConnectionError" else pure ()
    let _ ← timeNow
    let nm := basename filePath
    tgSend s!"Download finished.\n\nFile: {nm}\n\nNow uploading to Telegram..."
    pure true

/-- `bot.py` `download_file(url, status_message, file_path)` (lines
54-108). The GET on `url` is modelled by `resp`. Every exception in the
body is caught, reported via an `edit_text`, and turned into a false
return. -/
def download_file (url : String) (resp : HttpResponse) (filePath : String) :
    M Bool :=
  pyTry (download_file_body url resp filePath)
    (fun e => do
      tgSend s!"Download error: {e}"
      pure false)

/-- The upload of `bot.py` `process_download` lines 206-211:
`reply_document(document=open(file_path, 'rb'), ...)` followed by
`status_message.delete()` — the read handle is opened inline as an
argument and never explicitly closed. -/
def upload_block (filePath : String) : M Unit := do
  openRead filePath
  tgAction
  tgAction

/-- The `try` block of `bot.py` `process_download` (lines 202-213):
download, and on success upload inside an inner `try/except` that edits
the upload-failed text. -/
def process_download_body (url : String) (resp : HttpResponse)
    (filePath : String) : M Unit := do
  let ok ← download_file url resp filePath
  if ok then
    pyTry (upload_block filePath) (fun e => tgSend s!"❌ Upload failed: {e}")
  else pure ()

/-- The `finally` block of `bot.py` `process_download` (lines 216-219):
`if os.path.exists(file_path): os.remove(file_path)` — the `os.remove`
is not guarded by any `try`. -/
def process_download_fin (filePath : String) : M Unit := do
  let ex ← pathExists filePath
  if ex then removeFile filePath else pure ()

/-- `bot.py` `process_download(message, url, filename)` (lines
196-219): send the preparing text (outside the `try`), build
`file_path = os.path.join('downloads', filename)`, then run the body
under `try/except/finally`. -/
def process_download (url filename : String) (resp : HttpResponse) : M Unit := do
  tgSend "⏳ Preparing download..."
  pyTryFinally
    (pyTry (process_download_body url resp ("downloads/" ++ filename))
      (fun e => tgSend s!"❌ Error: {e}"))
    (process_download_fin ("downloads/" ++ filename))

/-- `bot.py` `handle_url(update, context)` (lines 110-145): strip the
text, reject it without touching the store unless it starts with
`http://` or `https://`, otherwise derive the default filename, store
the fresh session under the chat id (a plain dict assignment, replacing
any previous session), and present the default-vs-rename choice. -/
def handle_url (chatId text : String) : M Unit := do
  let url := pyStrip text
  if !(strStartsWith url "http://" || strStartsWith url "https://") then
    tgSend "Please send a valid direct download URL."
  else do
    let dflt := default_filename url
    putSession chatId { url := url, defaultFilename := dflt, waitingForName := false }
    tgSend s!"Name: {dflt}\nHow would you like to upload this?"

/-- `bot.py` `button_callback(update, context)` (lines 147-174): answer
the query; with no session for the chat, edit the session-expired text;
on `"default"`, delete the button message, run the transfer, then
delete the session; on `"rename"`, delete the button message, set the
waiting flag and prompt for the new name; any other payload is ignored.
-/
def button_callback (chatId data : String) (resp : HttpResponse) : M Unit := do
  tgAction
  let sessOpt ← findSession chatId
  match sessOpt with
  | none => tgSend "Session expired. Please send the URL again."
  | some sess =>
    let url := sess.url
    let dflt := sess.defaultFilename
    if data = "default" then do
      tgAction
      process_download url dflt resp
      eraseSession chatId
    else if data = "rename" then do
      tgAction
      setWaiting chatId
      tgSend s!"Current name: {dflt}\nSend me the new name for this file:"
    else pure ()

/-- `bot.py` `handle_filename(update, context)` (lines 176-194): with
no session for the chat, or with the waiting flag unset, return
silently; otherwise sanitize the stripped text, re-prompt when it
sanitizes to empty, and otherwise run the transfer and delete the
session. -/
def handle_filename (chatId text : String) (resp : HttpResponse) : M Unit := do
  let sessOpt ← findSession chatId
  match sessOpt with
  | none => pure ()
  | some sess =>
    if !sess.waitingForName then pure ()
    else do
      let newName := sanitize_filename (pyStrip text)
      let url := sess.url
      if newName = "" then tgSend "Invalid filename. Please try again."
      else do
        process_download url newName resp
        eraseSession chatId

/-! ## The class-based revision (`src/url_downloader_bot.py`)

Python keeps the last of the repeated method definitions, so the
effective `download_file` is lines 483-541 (speed guarded by
`if elapsed_time > 0 else 0`, ETA guarded by `if speed > 0 else 0`) and
the effective `download_and_send` is lines 351-425 (the upload opens
the file with `with open(file_path, 'rb') as f:` and the `finally`
block wraps `os.remove` in a `try/except`). -/

/-- The chunk loop of the effective `URLDownloaderBot.download_file`
(lines 497-528): like `dl_loop` but with the guarded speed and ETA. -/
def udb_dl_loop (fp : String) (totalSize : Nat) (startTime : Int) :
    List Nat → Nat → Int → M Unit
  | [], _, _ => pure ()
  | chunk :: rest, downloaded, lastUpdate => do
    if chunk ≠ 0 then
      writeChunk fp chunk
      let downloaded := downloaded + chunk
      let now ← timeNow
      if now - lastUpdate ≥ 500 then
        let frac ← pyDivByTotal downloaded totalSize
        let progress := frac * 100
        let elapsedMs := now - startTime
        let speed : ℚ :=
          if elapsedMs > 0 then (downloaded : ℚ) * 1000 / (elapsedMs : ℚ) else 0
        let eta : ℚ :=
          if speed > 0 then ((totalSize : ℚ) - (downloaded : ℚ)) / speed else 0
        pyTry (tgSend (dl_status_text progress speed eta)) (fun _ => pure ())
        udb_dl_loop fp totalSize startTime rest downloaded now
      else
        udb_dl_loop fp totalSize startTime rest downloaded lastUpdate
    else
      udb_dl_loop fp totalSize startTime rest downloaded lastUpdate

/-- The effective `URLDownloaderBot.download_file(url, file_path,
status_message)` (lines 483-541). -/
def udb_download_file (url : String) (resp : HttpResponse) (filePath : String) :
    M Bool :=
  pyTry
    (do
      let startTime ← timeNow
      if resp.status ≠ 200 then
        let st := toString resp.status
        tgSend s!"Download failed with status {st}"
        pure false
      else do
        let totalSize := resp.contentLength.getD 0
        openWrite filePath
        udb_dl_loop filePath totalSize startTime resp.chunks 0 0
        if resp.midStreamError then throwM "ConnectionError" else pure ()
        let _ ← timeNow
        let nm := basename filePath
        tgSend s!"Download finish.\n\nFile: {nm}\n\nNow uploading to Telegram..."
        pure true)
    (fun e => do
      tgSend s!"Download error: {e}"
      pure false)

/-- The effective `URLDownloaderBot.download_and_send(message, url,
filename)` (lines 351-425): download; on success read the file size,
then send the document inside `with open(file_path, 'rb') as f:` with
an inner `try/except` around the send (the upload progress callback is
invoked by the messaging library and touches no state modelled here);
on a false download edit the failed text; every body failure edits an
error text; the `finally` block removes the file inside a
`try/except`. -/
def udb_download_and_send (url filename : String) (resp : HttpResponse) :
    M Unit := do
  tgSend "⏳ Preparing download..."
  let filePath := "downloads/" ++ filename
  pyTryFinally
    (pyTry
      (do
        let ok ← udb_download_file url resp filePath
        if ok then do
          let _ ← getSize filePath
          pyWith (openRead filePath) closeHandle
            (pyTry
              (do
                tgAction
                tgAction)
              (fun e => tgSend s!"❌ Upload failed: {e}"))
        else tgSend "❌ Download failed")
      (fun e => tgSend s!"❌ Error: {e}"))
    (do
      let ex ← pathExists filePath
      if ex then pyTry (removeFile filePath) (fun _ => pure ()) else pure ())

/-! ## Verification definitions

The frame relations used by the correctness lemmas, and the concrete
inputs at which the claims are evaluated. -/

/-- Every remaining Telegram call succeeds. -/
def AllTrue (l : List Bool) : Prop := ∀ b ∈ l, b = true

instance (l : List Bool) : Decidable (AllTrue l) := by
  unfold AllTrue
  infer_instance

/-- A binary relation on states suitable for framing: reflexive and
transitive. -/
structure FrameRel (P : S → S → Prop) : Prop where
  refl : ∀ s, P s s
  trans : ∀ a b c, P a b → P b c → P a c

/-- The final state of every run of `x` is related to its initial
state, over both normal and exceptional exits. -/
def Frame (P : S → S → Prop) {α : Type} (x : M α) : Prop :=
  ∀ s, P s (x s).2

def WFrame (fp : String) (s s' : S) : Prop :=
  ∀ p ∈ s'.written, p ∈ s.written ∨
    (p = fp ∧ basename fp ≠ "" ∧ basename fp ≠ "." ∧ basename fp ≠ "..")

def HFrame (s s' : S) : Prop := s'.openHandles = s.openHandles

def DFrame (fp : String) (s s' : S) : Prop :=
  s'.store = s.store ∧
  (∀ p, p ≠ fp → alFind p s'.fs = alFind p s.fs) ∧
  ((alFind fp s.fs).isSome = true → (alFind fp s'.fs).isSome = true) ∧
  (AllTrue s.msgOk → AllTrue s'.msgOk)

/-- A path newly created by the bot: a direct child of the downloads
directory, with no separator in its name and an actual file name. -/
def GoodNewPath (p : String) : Prop :=
  ∃ n, p = "downloads/" ++ n ∧ (∀ c ∈ n.data, c ≠ '/') ∧
    n ≠ "" ∧ n ≠ "." ∧ n ≠ ".."

/-- Every stored session's default filename is separator-free. -/
def StoreNoSlash (st : List (String × Session)) : Prop :=
  ∀ e ∈ st, ∀ c ∈ e.2.defaultFilename.data, c ≠ '/'

instance (st : List (String × Session)) : Decidable (StoreNoSlash st) := by
  unfold StoreNoSlash
  infer_instance

/-- The empty world: no sessions, empty disk, all Telegram calls
succeed, fresh clock. -/
def s_empty : S := ⟨[], [], [], 0, [], [], []⟩

/-- A world whose next two clock readings coincide (the first progress
tick is throttled away). -/
def s_clock2 : S := ⟨[], [], [], 0, [], [], [0, 0]⟩

/-- A world whose second clock reading is one second after the first
(the first chunk triggers a progress update). -/
def s_tick : S := ⟨[], [], [], 0, [], [], [0, 1000]⟩

/-- A session awaiting a rename for `http://x/a`. -/
def sess_wait : Session := ⟨"http://x/a", "a", true⟩

/-- A world with chat `"c"` awaiting a rename. -/
def s_wait : S := ⟨[("c", sess_wait)], [], [], 0, [], [], []⟩

/-- A session with the choice still pending for `http://x/a`. -/
def sess_idle : Session := ⟨"http://x/a", "a", false⟩

/-- A world with chat `"c"` holding a pending choice, and coinciding
clock readings. -/
def s_choice : S := ⟨[("c", sess_idle)], [], [], 0, [], [], [0, 0]⟩

/-- A 200 response declaring five billion bytes (more than
`TG_MAX_FILE_SIZE`) and delivering one 8 KiB chunk. -/
def resp_big : HttpResponse := ⟨200, some 5000000000, [8192], false⟩

/-- A 200 response with no `content-length` header and one 100-byte
chunk. -/
def resp_nolen : HttpResponse := ⟨200, none, [100], false⟩

/-- A 200 response declaring 100 bytes and delivering one 50-byte
chunk. -/
def resp_small : HttpResponse := ⟨200, some 100, [50], false⟩

/-- A 200 response declaring zero length with an empty body. -/
def resp_empty : HttpResponse := ⟨200, some 0, [], false⟩

/-- A 256-character alphanumeric rename input. -/
def aaa256 : String := String.mk (List.replicate 256 'a')

/-! ## Lemmas: association lists -/

lemma alFind_alInsert_self {β : Type} (k : String) (v : β)
    (l : List (String × β)) : alFind k (alInsert k v l) = some v := by
  simp [alInsert, alFind]

lemma alFind_filter_ne {β : Type} (k' k : String) (l : List (String × β))
    (h : k' ≠ k) :
    alFind k' (l.filter (fun e => e.1 != k)) = alFind k' l := by
  induction l with
  | nil => rfl
  | cons a l ih =>
    obtain ⟨a1, a2⟩ := a
    by_cases ha : a1 = k
    · subst ha
      rw [List.filter_cons_of_neg (by simp), ih]
      have hne : ¬ (a1 = k') := fun hk => h hk.symm
      simp [alFind, hne]
    · rw [List.filter_cons_of_pos (by simpa using ha)]
      simp [alFind, ih]

lemma alFind_alInsert_ne {β : Type} (k' k : String) (v : β)
    (l : List (String × β)) (h : k' ≠ k) :
    alFind k' (alInsert k v l) = alFind k' l := by
  have hne : ¬ (k = k') := fun hk => h hk.symm
  simp only [alInsert, alFind, hne, if_false]
  exact alFind_filter_ne k' k l h

lemma alFind_alErase_self {β : Type} (k : String) (l : List (String × β)) :
    alFind k (alErase k l) = none := by
  induction l with
  | nil => rfl
  | cons a l ih =>
    obtain ⟨a1, a2⟩ := a
    by_cases ha : a1 = k
    · subst ha
      rw [alErase] at ih ⊢
      rw [List.filter_cons_of_neg (by simp)]
      exact ih
    · rw [alErase] at ih ⊢
      rw [List.filter_cons_of_pos (by simpa using ha)]
      simpa [alFind, ha] using ih

lemma alFind_alErase_ne {β : Type} (k' k : String) (l : List (String × β))
    (h : k' ≠ k) : alFind k' (alErase k l) = alFind k' l :=
  alFind_filter_ne k' k l h

lemma mem_of_alFind {β : Type} {k : String} {v : β} {l : List (String × β)}
    (h : alFind k l = some v) : (k, v) ∈ l := by
  induction l with
  | nil => simp [alFind] at h
  | cons a l ih =>
    obtain ⟨a1, a2⟩ := a
    by_cases ha : a1 = k
    · subst ha
      rw [alFind, if_pos rfl] at h
      injection h with h
      subst h
      exact List.mem_cons_self _ _
    · rw [alFind, if_neg ha] at h
      exact List.mem_cons_of_mem _ (ih h)

lemma keysNodup_alInsert {β : Type} (k : String) (v : β)
    (l : List (String × β)) (h : (l.map Prod.fst).Nodup) :
    (((alInsert k v l).map Prod.fst)).Nodup := by
  simp only [alInsert, List.map_cons, List.nodup_cons]
  constructor
  · intro hmem
    obtain ⟨e, he, hk⟩ := List.mem_map.mp hmem
    have := (List.mem_filter.mp he).2
    rw [hk] at this
    simp at this
  · have hsub : (l.filter (fun e => e.1 != k)).map Prod.fst
        |>.Sublist (l.map Prod.fst) := (List.filter_sublist l).map Prod.fst
    exact h.sublist hsub

/-! ## Lemmas: the all-true oracle -/

lemma AllTrue_tail {l : List Bool} (h : AllTrue l) : AllTrue l.tail := by
  cases l with
  | nil => exact h
  | cons b rest => exact fun x hx => h x (List.mem_cons_of_mem b hx)

lemma AllTrue_head {b : Bool} {rest : List Bool} (h : AllTrue (b :: rest)) :
    b = true :=
  h b (List.mem_cons_self b rest)

/-! ## Lemmas: filenames -/

lemma takeWhile_append_of_all {p : Char → Bool} {l1 l2 : List Char} {b : Char}
    (h1 : ∀ a ∈ l1, p a = true) (hb : p b = false) :
    (l1 ++ b :: l2).takeWhile p = l1 := by
  rw [List.takeWhile_append_of_pos h1, List.takeWhile_cons_of_neg (by simp [hb]),
    List.append_nil]

lemma string_mk_data (s : String) : String.mk s.data = s := rfl

lemma basename_no_slash (p : String) :
    ∀ c ∈ (basename p).data, c ≠ '/' := by
  intro c hc
  simp only [basename] at hc
  have := List.mem_takeWhile_imp (List.mem_reverse.mp hc)
  simpa using this

lemma basename_downloads (n : String) (h : ∀ c ∈ n.data, c ≠ '/') :
    basename ("downloads/" ++ n) = n := by
  unfold basename
  have hdata : ("downloads/" ++ n).data = "downloads/".data ++ n.data :=
    String.data_append _ _
  rw [hdata, List.reverse_append]
  have hrev : "downloads/".data.reverse = '/' :: "downloads".data.reverse := by
    decide
  have h1 : ∀ a ∈ n.data.reverse, (a != '/') = true := by
    intro a ha
    simpa using h a (List.mem_reverse.mp ha)
  have hb : (('/' : Char) != '/') = false := by decide
  rw [hrev, takeWhile_append_of_all h1 hb, List.reverse_reverse]

lemma sanitize_allowed (t : String) :
    ∀ c ∈ (sanitize_filename t).data, allowedChar c = true := by
  intro c hc
  simp only [sanitize_filename] at hc
  exact (List.mem_filter.mp hc).2

lemma allowedChar_ne_slash {c : Char} (h : allowedChar c = true) : c ≠ '/' := by
  intro he
  subst he
  revert h
  decide

lemma sanitize_no_slash (t : String) :
    ∀ c ∈ (sanitize_filename t).data, c ≠ '/' :=
  fun c hc => allowedChar_ne_slash (sanitize_allowed t c hc)

lemma default_filename_ne_empty (u : String) : default_filename u ≠ "" := by
  unfold default_filename
  split
  · decide
  · next h => exact h

lemma default_filename_no_slash (u : String) :
    ∀ c ∈ (default_filename u).data, c ≠ '/' := by
  unfold default_filename
  split
  · exact fun c hc => (by decide : ∀ c ∈ "download".data, c ≠ '/') c hc
  · exact basename_no_slash _

/-! ## Lemmas: progress-bar arithmetic -/

lemma strRepeatN_length (str : String) (k : Nat) :
    (strRepeatN str k).length = k * str.length := by
  induction k with
  | zero => simp [strRepeatN]
  | succ k ih =>
    rw [strRepeatN, String.length_append, ih]
    ring

lemma pyStrRepeat_length (str : String) (n : ℤ) :
    (pyStrRepeat str n).length = n.toNat * str.length :=
  strRepeatN_length str n.toNat

lemma pyInt_of_nonneg {q : ℚ} (h : 0 ≤ q) : pyInt q = ⌊q⌋ := if_pos h

lemma progress_bar_length_eq (p : ℚ) :
    (progress_bar p).length =
      (filled_length p).toNat + (10 - filled_length p).toNat := by
  rw [progress_bar, String.length_append, pyStrRepeat_length, pyStrRepeat_length]
  have h1 : "■".length = 1 := by decide
  have h2 : "□".length = 1 := by decide
  rw [h1, h2]
  ring

lemma progress_bar_length_max (p : ℚ) (h : 0 ≤ p) :
    (progress_bar p).length = max 10 (filled_length p).toNat := by
  rw [progress_bar_length_eq]
  have h0 : 0 ≤ filled_length p := by
    rw [filled_length, pyInt_of_nonneg (by positivity)]
    exact Int.floor_nonneg.mpr (by positivity)
  omega

lemma filled_length_bounds {p : ℚ} (h0 : 0 ≤ p) (h100 : p ≤ 100) :
    0 ≤ filled_length p ∧ filled_length p ≤ 10 := by
  rw [filled_length, pyInt_of_nonneg (by positivity)]
  constructor
  · exact Int.floor_nonneg.mpr (by positivity)
  · calc ⌊p / 10⌋ ≤ ⌊(10 : ℚ)⌋ := Int.floor_le_floor (by linarith)
    _ = 10 := by norm_num

/-! ## Lemmas: the monad -/

lemma run_bind {α β : Type} (x : M α) (f : α → M β) (s : S) :
    (x >>= f) s =
      match x s with
      | (Except.ok a, s') => f a s'
      | (Except.error e, s') => (Except.error e, s') := rfl

lemma run_pure {α : Type} (a : α) (s : S) :
    (pure a : M α) s = (Except.ok a, s) := rfl

/-- Characterization of `tgSend` by the head of the oracle. -/
lemma tgSend_char (t : String) (s : S) :
    tgSend t s =
      match s.msgOk with
      | [] => (Except.ok (), { s with sent := s.sent ++ [t] })
      | true :: rest =>
        (Except.ok (), { s with msgOk := rest, sent := s.sent ++ [t] })
      | false :: rest => (Except.error "TelegramError", { s with msgOk := rest }) := by
  obtain ⟨st, fs, w, oh, mo, se, ck⟩ := s
  rcases mo with _ | ⟨b, rest⟩
  · rfl
  · cases b <;> rfl

/-- Characterization of `tgAction` by the head of the oracle. -/
lemma tgAction_char (s : S) :
    tgAction s =
      match s.msgOk with
      | [] => (Except.ok (), s)
      | true :: rest => (Except.ok (), { s with msgOk := rest })
      | false :: rest => (Except.error "TelegramError", { s with msgOk := rest }) := by
  obtain ⟨st, fs, w, oh, mo, se, ck⟩ := s
  rcases mo with _ | ⟨b, rest⟩
  · rfl
  · cases b <;> rfl

lemma tgSend_ok (t : String) (s : S) (h : AllTrue s.msgOk) :
    tgSend t s =
      (Except.ok (), { s with msgOk := s.msgOk.tail, sent := s.sent ++ [t] }) := by
  obtain ⟨st, fs, w, oh, mo, se, ck⟩ := s
  rcases mo with _ | ⟨b, rest⟩
  · rfl
  · have hb : b = true := AllTrue_head h
    subst hb
    rfl

lemma tgAction_ok (s : S) (h : AllTrue s.msgOk) :
    tgAction s = (Except.ok (), { s with msgOk := s.msgOk.tail }) := by
  obtain ⟨st, fs, w, oh, mo, se, ck⟩ := s
  rcases mo with _ | ⟨b, rest⟩
  · rfl
  · have hb : b = true := AllTrue_head h
    subst hb
    rfl

lemma timeNow_char (s : S) :
    timeNow s =
      match s.clock with
      | [] => (Except.ok 1000000000, s)
      | t :: rest => (Except.ok t, { s with clock := rest }) := rfl

/-! ## Frame relations and their combinators -/

lemma frame_pure {P : S → S → Prop} (hP : FrameRel P) {α : Type} (a : α) :
    Frame P (pure a : M α) :=
  fun s => hP.refl s

lemma frame_throwM {P : S → S → Prop} (hP : FrameRel P) {α : Type} (e : String) :
    Frame P (throwM e : M α) :=
  fun s => hP.refl s

lemma frame_bind {P : S → S → Prop} (hP : FrameRel P) {α β : Type}
    {x : M α} {f : α → M β} (hx : Frame P x) (hf : ∀ a, Frame P (f a)) :
    Frame P (x >>= f) := by
  intro s
  rw [run_bind]
  rcases hxs : x s with ⟨r, s1⟩
  have h1 : P s s1 := by
    have := hx s
    rw [hxs] at this
    exact this
  cases r with
  | ok a => exact hP.trans _ _ _ h1 (hf a s1)
  | error e => exact h1

lemma frame_ite {P : S → S → Prop} {α : Type} {c : Prop} [Decidable c]
    {x y : M α} (hx : Frame P x) (hy : Frame P y) :
    Frame P (if c then x else y) := by
  split
  · exact hx
  · exact hy

lemma frame_pyTry {P : S → S → Prop} (hP : FrameRel P) {α : Type}
    {x : M α} {h : String → M α} (hx : Frame P x)
    (hh : ∀ e, Frame P (h e)) : Frame P (pyTry x h) := by
  intro s
  unfold pyTry
  rcases hxs : x s with ⟨r, s1⟩
  have h1 : P s s1 := by
    have := hx s
    rw [hxs] at this
    exact this
  cases r with
  | ok a => exact h1
  | error e => exact hP.trans _ _ _ h1 (hh e s1)

lemma frame_pyTryFinally {P : S → S → Prop} (hP : FrameRel P) {α : Type}
    {body : M α} {fin : M Unit} (hb : Frame P body) (hf : Frame P fin) :
    Frame P (pyTryFinally body fin) := by
  intro s
  unfold pyTryFinally
  rcases hbs : body s with ⟨r, s1⟩
  have h1 : P s s1 := by
    have := hb s
    rw [hbs] at this
    exact this
  rcases hfs : fin s1 with ⟨r2, s2⟩
  have h2 : P s1 s2 := by
    have := hf s1
    rw [hfs] at this
    exact this
  cases r <;> simp only [hfs] <;> cases r2 <;> exact hP.trans _ _ _ h1 h2

lemma frame_pyWith {P : S → S → Prop} (hP : FrameRel P) {α : Type}
    {acq rel : M Unit} {body : M α} (ha : Frame P acq) (hr : Frame P rel)
    (hb : Frame P body) : Frame P (pyWith acq rel body) := by
  intro s
  unfold pyWith
  rcases has : acq s with ⟨r, s1⟩
  have h1 : P s s1 := by
    have := ha s
    rw [has] at this
    exact this
  cases r with
  | ok u => exact hP.trans _ _ _ h1 (frame_pyTryFinally hP hb hr s1)
  | error e => exact h1

/-! ## The write-log frame

Every path a run appends to the write log is either the fixed transfer
path with a regular-file final component, or was there before. -/

lemma frameRel_WFrame (fp : String) : FrameRel (WFrame fp) where
  refl s := fun p hp => Or.inl hp
  trans a b c hab hbc := fun p hp => (hbc p hp).elim (fun h => hab p h) Or.inr

lemma wframe_of_written_eq {fp : String} {α : Type} {x : M α}
    (h : ∀ s, (x s).2.written = s.written) : Frame (WFrame fp) x :=
  fun s p hp => Or.inl (by rw [h s] at hp; exact hp)

lemma written_tgSend (t : String) (s : S) : (tgSend t s).2.written = s.written := by
  obtain ⟨st, fs, w, oh, mo, se, ck⟩ := s
  rcases mo with _ | ⟨b, rest⟩
  · rfl
  · cases b <;> rfl

lemma written_tgAction (s : S) : (tgAction s).2.written = s.written := by
  obtain ⟨st, fs, w, oh, mo, se, ck⟩ := s
  rcases mo with _ | ⟨b, rest⟩
  · rfl
  · cases b <;> rfl

lemma written_timeNow (s : S) : (timeNow s).2.written = s.written := by
  obtain ⟨st, fs, w, oh, mo, se, ck⟩ := s
  rcases ck with _ | ⟨t, rest⟩ <;> rfl

lemma written_writeChunk (p : String) (n : Nat) (s : S) :
    (writeChunk p n s).2.written = s.written := by
  unfold writeChunk
  rcases alFind p s.fs with _ | sz <;> rfl

lemma written_removeFile (p : String) (s : S) :
    (removeFile p s).2.written = s.written := by
  unfold removeFile
  split
  · rfl
  · rcases alFind p s.fs with _ | sz <;> rfl

lemma written_openRead (p : String) (s : S) :
    (openRead p s).2.written = s.written := by
  unfold openRead
  split <;> rfl

lemma written_pyDivByTotal (d t : Nat) (s : S) :
    (pyDivByTotal d t s).2.written = s.written := by
  unfold pyDivByTotal
  split <;> rfl

lemma written_pyDivBySpan (d : Nat) (m : Int) (s : S) :
    (pyDivBySpan d m s).2.written = s.written := by
  unfold pyDivBySpan
  split <;> rfl

lemma wframe_openWrite (fp : String) : Frame (WFrame fp) (openWrite fp) := by
  intro s p hp
  unfold openWrite at hp
  split at hp
  · exact Or.inl hp
  · next hc =>
    simp only [List.mem_append, List.mem_singleton] at hp
    rcases hp with hp | hp
    · exact Or.inl hp
    · refine Or.inr ⟨hp, ?_, ?_, ?_⟩ <;>
        · intro he
          apply hc
          simp [he]

lemma wframe_pathExists (fp p : String) : Frame (WFrame fp) (pathExists p) :=
  wframe_of_written_eq (fun _ => rfl)

lemma wframe_getSize (fp p : String) : Frame (WFrame fp) (getSize p) := by
  apply wframe_of_written_eq
  intro s
  unfold getSize
  rcases alFind p s.fs with _ | sz <;> rfl

lemma wframe_closeHandle (fp : String) : Frame (WFrame fp) closeHandle :=
  wframe_of_written_eq (fun _ => rfl)

/-! ## The handle-count frame -/

lemma frameRel_HFrame : FrameRel HFrame :=
  ⟨fun _ => rfl, fun _ _ _ h1 h2 => h2.trans h1⟩

lemma hframe_of_eq {α : Type} {x : M α}
    (h : ∀ s, (x s).2.openHandles = s.openHandles) : Frame HFrame x :=
  fun s => h s

lemma hframe_tgSend (t : String) : Frame HFrame (tgSend t) := by
  apply hframe_of_eq
  intro s
  obtain ⟨st, fs, w, oh, mo, se, ck⟩ := s
  rcases mo with _ | ⟨b, rest⟩
  · rfl
  · cases b <;> rfl

lemma hframe_tgAction : Frame HFrame tgAction := by
  apply hframe_of_eq
  intro s
  obtain ⟨st, fs, w, oh, mo, se, ck⟩ := s
  rcases mo with _ | ⟨b, rest⟩
  · rfl
  · cases b <;> rfl

lemma hframe_timeNow : Frame HFrame timeNow := by
  apply hframe_of_eq
  intro s
  obtain ⟨st, fs, w, oh, mo, se, ck⟩ := s
  rcases ck with _ | ⟨t, rest⟩ <;> rfl

lemma hframe_writeChunk (p : String) (n : Nat) : Frame HFrame (writeChunk p n) := by
  apply hframe_of_eq
  intro s
  unfold writeChunk
  rcases alFind p s.fs with _ | sz <;> rfl

lemma hframe_openWrite (p : String) : Frame HFrame (openWrite p) := by
  apply hframe_of_eq
  intro s
  unfold openWrite
  split <;> rfl

lemma hframe_removeFile (p : String) : Frame HFrame (removeFile p) := by
  apply hframe_of_eq
  intro s
  unfold removeFile
  split
  · rfl
  · rcases alFind p s.fs with _ | sz <;> rfl

lemma hframe_pathExists (p : String) : Frame HFrame (pathExists p) :=
  hframe_of_eq (fun _ => rfl)

lemma hframe_getSize (p : String) : Frame HFrame (getSize p) := by
  apply hframe_of_eq
  intro s
  unfold getSize
  rcases alFind p s.fs with _ | sz <;> rfl

lemma hframe_pyDivByTotal (d t : Nat) : Frame HFrame (pyDivByTotal d t) := by
  apply hframe_of_eq
  intro s
  unfold pyDivByTotal
  split <;> rfl

lemma hframe_pyDivBySpan (d : Nat) (m : Int) : Frame HFrame (pyDivBySpan d m) := by
  apply hframe_of_eq
  intro s
  unfold pyDivBySpan
  split <;> rfl

/-- The `with open(file_path, 'rb') as f:` block: whatever the body
does to other state, the net handle count is unchanged on every exit,
because the acquired handle is released on every exit of the body. -/
lemma hframe_pyWith_openRead (p : String) {α : Type} {body : M α}
    (hb : Frame HFrame body) :
    Frame HFrame (pyWith (openRead p) closeHandle body) := by
  intro s
  unfold pyWith openRead
  by_cases hc : (alFind p s.fs).isSome = true
  · rw [if_pos hc]
    show HFrame s
      (pyTryFinally body closeHandle { s with openHandles := s.openHandles + 1 }).2
    unfold pyTryFinally
    rcases hbs : body { s with openHandles := s.openHandles + 1 } with ⟨r, s2⟩
    have h2 : s2.openHandles = s.openHandles + 1 := by
      have := hb { s with openHandles := s.openHandles + 1 }
      rw [hbs] at this
      exact this
    cases r <;> simp [closeHandle, HFrame, h2]
  · rw [if_neg hc]
    exact rfl

/-! ## The download frame

What the download body preserves relative to its transfer path: the
session store, the rest of the filesystem, the presence of the
transfer file once created, and the all-success oracle. -/

lemma frameRel_DFrame (fp : String) : FrameRel (DFrame fp) where
  refl s := ⟨rfl, fun _ _ => rfl, id, id⟩
  trans a b c h1 h2 :=
    ⟨h2.1.trans h1.1, fun p hp => (h2.2.1 p hp).trans (h1.2.1 p hp),
      fun h => h2.2.2.1 (h1.2.2.1 h), fun h => h2.2.2.2 (h1.2.2.2 h)⟩

lemma dframe_tgSend (fp t : String) : Frame (DFrame fp) (tgSend t) := by
  intro s
  obtain ⟨st, fs, w, oh, mo, se, ck⟩ := s
  rcases mo with _ | ⟨b, rest⟩
  · exact ⟨rfl, fun _ _ => rfl, id, id⟩
  · cases b <;>
      exact ⟨rfl, fun _ _ => rfl, id, fun h => AllTrue_tail h⟩

lemma dframe_tgAction (fp : String) : Frame (DFrame fp) tgAction := by
  intro s
  obtain ⟨st, fs, w, oh, mo, se, ck⟩ := s
  rcases mo with _ | ⟨b, rest⟩
  · exact ⟨rfl, fun _ _ => rfl, id, id⟩
  · cases b <;>
      exact ⟨rfl, fun _ _ => rfl, id, fun h => AllTrue_tail h⟩

lemma dframe_timeNow (fp : String) : Frame (DFrame fp) timeNow := by
  intro s
  obtain ⟨st, fs, w, oh, mo, se, ck⟩ := s
  rcases ck with _ | ⟨t, rest⟩ <;> exact ⟨rfl, fun _ _ => rfl, id, id⟩

lemma dframe_writeChunk (fp : String) (n : Nat) :
    Frame (DFrame fp) (writeChunk fp n) := by
  intro s
  unfold writeChunk
  rcases alFind fp s.fs with _ | sz
  · exact ⟨rfl, fun _ _ => rfl, id, id⟩
  · refine ⟨rfl, ?_, ?_, id⟩
    · intro p hp
      exact alFind_alInsert_ne p fp _ s.fs hp
    · intro _
      rw [alFind_alInsert_self]
      rfl

lemma dframe_openWrite (fp : String) : Frame (DFrame fp) (openWrite fp) := by
  intro s
  unfold openWrite
  split
  · exact ⟨rfl, fun _ _ => rfl, id, id⟩
  · refine ⟨rfl, ?_, ?_, id⟩
    · intro p hp
      exact alFind_alInsert_ne p fp _ s.fs hp
    · intro _
      rw [alFind_alInsert_self]
      rfl

lemma dframe_pyDivByTotal (fp : String) (d t : Nat) :
    Frame (DFrame fp) (pyDivByTotal d t) := by
  intro s
  unfold pyDivByTotal
  split <;> exact ⟨rfl, fun _ _ => rfl, id, id⟩

lemma dframe_pyDivBySpan (fp : String) (d : Nat) (m : Int) :
    Frame (DFrame fp) (pyDivBySpan d m) := by
  intro s
  unfold pyDivBySpan
  split <;> exact ⟨rfl, fun _ _ => rfl, id, id⟩

/-! ## Frames of the transfer functions -/

lemma frame_dl_loop {P : S → S → Prop} (hP : FrameRel P)
    (fp : String) (total : Nat) (start : Int)
    (hw : ∀ n, Frame P (writeChunk fp n)) (ht : Frame P timeNow)
    (h1 : ∀ d t, Frame P (pyDivByTotal d t))
    (h2 : ∀ d m, Frame P (pyDivBySpan d m))
    (hs : ∀ t, Frame P (tgSend t)) :
    ∀ (l : List Nat) (d : Nat) (lu : Int),
      Frame P (dl_loop fp total start l d lu) := by
  intro l
  induction l with
  | nil =>
    intro d lu
    simp only [dl_loop]
    exact frame_pure hP ()
  | cons c rest ih =>
    intro d lu
    simp only [dl_loop]
    apply frame_ite
    · apply frame_bind hP (hw c)
      intro _
      apply frame_bind hP ht
      intro now
      apply frame_ite
      · apply frame_bind hP (h1 _ _)
        intro frac
        apply frame_bind hP (h2 _ _)
        intro speed
        apply frame_bind hP
          (frame_pyTry hP (hs _) (fun _ => frame_pure hP ()))
        intro _
        exact ih _ _
      · exact ih _ _
    · exact ih _ _

lemma frame_udb_dl_loop {P : S → S → Prop} (hP : FrameRel P)
    (fp : String) (total : Nat) (start : Int)
    (hw : ∀ n, Frame P (writeChunk fp n)) (ht : Frame P timeNow)
    (h1 : ∀ d t, Frame P (pyDivByTotal d t))
    (hs : ∀ t, Frame P (tgSend t)) :
    ∀ (l : List Nat) (d : Nat) (lu : Int),
      Frame P (udb_dl_loop fp total start l d lu) := by
  intro l
  induction l with
  | nil =>
    intro d lu
    simp only [udb_dl_loop]
    exact frame_pure hP ()
  | cons c rest ih =>
    intro d lu
    simp only [udb_dl_loop]
    apply frame_ite
    · apply frame_bind hP (hw c)
      intro _
      apply frame_bind hP ht
      intro now
      apply frame_ite
      · apply frame_bind hP (h1 _ _)
        intro frac
        apply frame_bind hP
          (frame_pyTry hP (hs _) (fun _ => frame_pure hP ()))
        intro _
        exact ih _ _
      · exact ih _ _
    · exact ih _ _

lemma frame_download_file {P : S → S → Prop} (hP : FrameRel P)
    (url : String) (resp : HttpResponse) (fp : String)
    (hw : ∀ n, Frame P (writeChunk fp n)) (ht : Frame P timeNow)
    (h1 : ∀ d t, Frame P (pyDivByTotal d t))
    (h2 : ∀ d m, Frame P (pyDivBySpan d m))
    (hs : ∀ t, Frame P (tgSend t)) (ho : Frame P (openWrite fp)) :
    Frame P (download_file url resp fp) := by
  unfold download_file download_file_body
  apply frame_pyTry hP
  · apply frame_bind hP ht
    intro startTime
    apply frame_ite
    · apply frame_bind hP (hs _)
      intro _
      exact frame_pure hP _
    · apply frame_bind hP ho
      intro _
      apply frame_bind hP (frame_dl_loop hP fp _ _ hw ht h1 h2 hs _ _ _)
      intro _
      apply frame_ite
      · apply frame_bind hP (frame_throwM hP _)
        intro _
        apply frame_bind hP ht
        intro _
        apply frame_bind hP (hs _)
        intro _
        exact frame_pure hP _
      · apply frame_bind hP (frame_pure hP ())
        intro _
        apply frame_bind hP ht
        intro _
        apply frame_bind hP (hs _)
        intro _
        exact frame_pure hP _
  · intro e
    apply frame_bind hP (hs _)
    intro _
    exact frame_pure hP _

lemma frame_udb_download_file {P : S → S → Prop} (hP : FrameRel P)
    (url : String) (resp : HttpResponse) (fp : String)
    (hw : ∀ n, Frame P (writeChunk fp n)) (ht : Frame P timeNow)
    (h1 : ∀ d t, Frame P (pyDivByTotal d t))
    (hs : ∀ t, Frame P (tgSend t)) (ho : Frame P (openWrite fp)) :
    Frame P (udb_download_file url resp fp) := by
  unfold udb_download_file
  apply frame_pyTry hP
  · apply frame_bind hP ht
    intro startTime
    apply frame_ite
    · apply frame_bind hP (hs _)
      intro _
      exact frame_pure hP _
    · apply frame_bind hP ho
      intro _
      apply frame_bind hP (frame_udb_dl_loop hP fp _ _ hw ht h1 hs _ _ _)
      intro _
      apply frame_ite
      · apply frame_bind hP (frame_throwM hP _)
        intro _
        apply frame_bind hP ht
        intro _
        apply frame_bind hP (hs _)
        intro _
        exact frame_pure hP _
      · apply frame_bind hP (frame_pure hP ())
        intro _
        apply frame_bind hP ht
        intro _
        apply frame_bind hP (hs _)
        intro _
        exact frame_pure hP _
  · intro e
    apply frame_bind hP (hs _)
    intro _
    exact frame_pure hP _

/-- The write-log frame of the whole transfer: every path appended to
the write log during `process_download url fn resp` is
`downloads/fn`, appended only when its final component names a regular
file. -/
lemma wframe_process_download (url fn : String) (resp : HttpResponse) :
    Frame (WFrame ("downloads/" ++ fn)) (process_download url fn resp) := by
  have hP := frameRel_WFrame ("downloads/" ++ fn)
  have hs : ∀ t, Frame (WFrame ("downloads/" ++ fn)) (tgSend t) :=
    fun t => wframe_of_written_eq (written_tgSend t)
  have ha : Frame (WFrame ("downloads/" ++ fn)) tgAction :=
    wframe_of_written_eq written_tgAction
  unfold process_download process_download_body process_download_fin upload_block
  apply frame_bind hP (hs _)
  intro _
  apply frame_pyTryFinally hP
  · apply frame_pyTry hP
    · apply frame_bind hP
        (frame_download_file hP url resp _
          (fun n => wframe_of_written_eq (written_writeChunk _ n))
          (wframe_of_written_eq written_timeNow)
          (fun d t => wframe_of_written_eq (written_pyDivByTotal d t))
          (fun d m => wframe_of_written_eq (written_pyDivBySpan d m))
          hs (wframe_openWrite _))
      intro ok
      apply frame_ite
      · apply frame_pyTry hP
        · apply frame_bind hP (wframe_of_written_eq (written_openRead _))
          intro _
          apply frame_bind hP ha
          intro _
          exact ha
        · intro e
          exact hs _
      · exact frame_pure hP ()
    · intro e
      exact hs _
  · apply frame_bind hP (wframe_pathExists _ _)
    intro ex
    apply frame_ite
    · exact wframe_of_written_eq (written_removeFile _)
    · exact frame_pure hP ()

/-- The handle-count frame of the class-based transfer: on every exit
of `download_and_send`, the net count of unreleased read handles is
unchanged — the upload's `with open` block releases its handle on all
paths. -/
lemma hframe_udb_download_and_send (url fn : String) (resp : HttpResponse) :
    Frame HFrame (udb_download_and_send url fn resp) := by
  have hP := frameRel_HFrame
  unfold udb_download_and_send
  apply frame_bind hP (hframe_tgSend _)
  intro _
  apply frame_pyTryFinally hP
  · apply frame_pyTry hP
    · apply frame_bind hP
        (frame_udb_download_file hP url resp _
          (fun n => hframe_writeChunk _ n) hframe_timeNow
          (fun d t => hframe_pyDivByTotal d t) (fun t => hframe_tgSend t)
          (hframe_openWrite _))
      intro ok
      apply frame_ite
      · apply frame_bind hP (hframe_getSize _)
        intro _
        apply hframe_pyWith_openRead
        apply frame_pyTry hP
        · apply frame_bind hP hframe_tgAction
          intro _
          exact hframe_tgAction
        · intro e
          exact hframe_tgSend _
      · exact hframe_tgSend _
    · intro e
      exact hframe_tgSend _
  · apply frame_bind hP (hframe_pathExists _)
    intro ex
    apply frame_ite
    · exact frame_pyTry hP (hframe_removeFile _) (fun _ => frame_pure hP ())
    · exact frame_pure hP ()


/-! ## Run lemmas: computing successful executions -/

lemma bind_ok {α β : Type} {x : M α} {f : α → M β} {s s1 : S} {a : α}
    (h : x s = (Except.ok a, s1)) : (x >>= f) s = f a s1 := by
  rw [run_bind, h]

lemma bind_err {α β : Type} {x : M α} {f : α → M β} {s s1 : S} {e : String}
    (h : x s = (Except.error e, s1)) : (x >>= f) s = (Except.error e, s1) := by
  rw [run_bind, h]

lemma pyTry_ok {α : Type} {x : M α} {h : String → M α} {s s1 : S} {a : α}
    (hx : x s = (Except.ok a, s1)) : pyTry x h s = (Except.ok a, s1) := by
  unfold pyTry
  rw [hx]

lemma pyTry_err {α : Type} {x : M α} {h : String → M α} {s s1 : S} {e : String}
    (hx : x s = (Except.error e, s1)) : pyTry x h s = h e s1 := by
  unfold pyTry
  rw [hx]

lemma timeNow_run (s : S) :
    ∃ (t : Int) (sA : S), timeNow s = (Except.ok t, sA) ∧
      sA.store = s.store ∧ sA.fs = s.fs ∧ sA.msgOk = s.msgOk ∧
      sA.written = s.written ∧ sA.sent = s.sent ∧
      sA.openHandles = s.openHandles := by
  obtain ⟨st, fs, w, oh, mo, se, ck⟩ := s
  rcases ck with _ | ⟨t, rest⟩
  · exact ⟨_, _, rfl, rfl, rfl, rfl, rfl, rfl, rfl⟩
  · exact ⟨_, _, rfl, rfl, rfl, rfl, rfl, rfl, rfl⟩

lemma openWrite_guard_err {p : String} (s : S)
    (h : (basename p == "" || basename p == "." || basename p == "..") = true) :
    openWrite p s = (Except.error "IsADirectoryError", s) := by
  unfold openWrite
  rw [if_pos h]

lemma openWrite_guard_ok {p : String} (s : S)
    (h : ¬ ((basename p == "" || basename p == "." || basename p == "..") = true)) :
    openWrite p s =
      (Except.ok (), { s with fs := alInsert p 0 s.fs, written := s.written ++ [p] }) := by
  unfold openWrite
  rw [if_neg h]

lemma download_file_ok (url : String) (resp : HttpResponse) (fp : String) (s : S)
    (hmsg : AllTrue s.msgOk) :
    ∃ b s', download_file url resp fp s = (Except.ok b, s') ∧
      AllTrue s'.msgOk ∧ s'.store = s.store ∧
      (b = true → (alFind fp s'.fs).isSome = true) := by
  obtain ⟨t0, sA, htime, hAstore, hAfs, hAmsg, -, -, -⟩ := timeNow_run s
  have hAmsgT : AllTrue sA.msgOk := hAmsg ▸ hmsg
  unfold download_file
  by_cases hst : resp.status ≠ 200
  · rcases hbody : download_file_body url resp fp s with ⟨r, sX⟩
    have hval := hbody
    unfold download_file_body at hval
    rw [bind_ok htime, if_pos hst, bind_ok (tgSend_ok _ sA hAmsgT), run_pure] at hval
    injection hval with hr hsX
    subst hr
    subst hsX
    rw [pyTry_ok hbody]
    refine ⟨false, _, rfl, AllTrue_tail hAmsgT, hAstore, ?_⟩
    intro h
    cases h
  · by_cases hg : (basename fp == "" || basename fp == "." || basename fp == "..") = true
    · have hbody : download_file_body url resp fp s =
          (Except.error "IsADirectoryError", sA) := by
        unfold download_file_body
        rw [bind_ok htime, if_neg hst, bind_err (openWrite_guard_err sA hg)]
      rw [pyTry_err hbody, bind_ok (tgSend_ok _ sA hAmsgT), run_pure]
      refine ⟨false, _, rfl, AllTrue_tail hAmsgT, hAstore, ?_⟩
      intro h
      cases h
    · set sB : S := { sA with fs := alInsert fp 0 sA.fs, written := sA.written ++ [fp] } with hsB
      have hBmsgT : AllTrue sB.msgOk := hAmsgT
      rcases hloop : dl_loop fp (resp.contentLength.getD 0) t0 resp.chunks 0 0 sB with ⟨rl, sC⟩
      have hD : DFrame fp sB sC := by
        have := frame_dl_loop (frameRel_DFrame fp) fp (resp.contentLength.getD 0) t0
          (dframe_writeChunk fp) (dframe_timeNow fp) (dframe_pyDivByTotal fp)
          (dframe_pyDivBySpan fp) (dframe_tgSend fp) resp.chunks 0 0 sB
        rw [hloop] at this
        exact this
      have hCstore : sC.store = s.store := hD.1.trans hAstore
      have hCmsgT : AllTrue sC.msgOk := hD.2.2.2 hBmsgT
      have hCsome : (alFind fp sC.fs).isSome = true := by
        apply hD.2.2.1
        show (alFind fp (alInsert fp 0 sA.fs)).isSome = true
        rw [alFind_alInsert_self]
        rfl
      cases rl with
      | error e =>
        have hbody : download_file_body url resp fp s = (Except.error e, sC) := by
          unfold download_file_body
          rw [bind_ok htime, if_neg hst, bind_ok (openWrite_guard_ok sA hg),
            bind_err hloop]
        rw [pyTry_err hbody, bind_ok (tgSend_ok _ sC hCmsgT), run_pure]
        refine ⟨false, _, rfl, AllTrue_tail hCmsgT, hCstore, ?_⟩
        intro h
        cases h
      | ok u =>
        obtain ⟨t1, sD, htime2, hDstore, hDfs, hDmsg, -, -, -⟩ := timeNow_run sC
        have hDmsgT : AllTrue sD.msgOk := hDmsg ▸ hCmsgT
        cases hm : resp.midStreamError with
        | false =>
          rcases hbody : download_file_body url resp fp s with ⟨r, sX⟩
          have hval := hbody
          unfold download_file_body at hval
          rw [bind_ok htime, if_neg hst, bind_ok (openWrite_guard_ok sA hg),
            bind_ok hloop] at hval
          simp only [hm, Bool.false_eq_true, if_false] at hval
          rw [bind_ok (show (pure () : M Unit) sC = (Except.ok (), sC) from rfl),
            bind_ok htime2, bind_ok (tgSend_ok _ sD hDmsgT), run_pure] at hval
          injection hval with hr hsX
          subst hr
          subst hsX
          rw [pyTry_ok hbody]
          refine ⟨true, _, rfl, AllTrue_tail hDmsgT, hDstore.trans hCstore, ?_⟩
          intro _
          show (alFind fp sD.fs).isSome = true
          rw [hDfs]
          exact hCsome
        | true =>
          have hbody : download_file_body url resp fp s =
              (Except.error "ConnectionError", sC) := by
            unfold download_file_body
            rw [bind_ok htime, if_neg hst, bind_ok (openWrite_guard_ok sA hg),
              bind_ok hloop]
            simp only [hm, if_true]
            rw [bind_err (show throwM "ConnectionError" sC =
              (Except.error "ConnectionError", sC) from rfl)]
          rw [pyTry_err hbody, bind_ok (tgSend_ok _ sC hCmsgT), run_pure]
          refine ⟨false, _, rfl, AllTrue_tail hCmsgT, hCstore, ?_⟩
          intro h
          cases h

lemma pyTryFinally_ok_ok {α : Type} {body : M α} {fin : M Unit} {s s1 s2 : S}
    {a : α} {u : Unit} (hb : body s = (Except.ok a, s1))
    (hf : fin s1 = (Except.ok u, s2)) :
    pyTryFinally body fin s = (Except.ok a, s2) := by
  unfold pyTryFinally
  rw [hb]
  simp only [hf]

lemma openRead_ok {p : String} {s : S} (h : (alFind p s.fs).isSome = true) :
    openRead p s = (Except.ok (), { s with openHandles := s.openHandles + 1 }) := by
  unfold openRead
  rw [if_pos h]

lemma isSome_eq_false_iff {β : Type} {o : Option β} :
    o.isSome = false ↔ o = none := by
  cases o <;> simp

lemma process_download_fin_ok (fp : String) (s : S)
    (hdir : isDirEntry fp = false) :
    ∃ s', process_download_fin fp s = (Except.ok (), s') ∧
      s'.store = s.store ∧ s'.msgOk = s.msgOk ∧ alFind fp s'.fs = none := by
  unfold process_download_fin
  rw [bind_ok (show pathExists fp s =
    (Except.ok (isDirEntry fp || (alFind fp s.fs).isSome), s) from rfl)]
  rw [hdir, Bool.false_or]
  cases his : (alFind fp s.fs).isSome with
  | false =>
    rw [if_neg (by simp)]
    rw [run_pure]
    exact ⟨s, rfl, rfl, rfl, isSome_eq_false_iff.mp his⟩
  | true =>
    rw [if_pos rfl]
    have hrm : removeFile fp s = (Except.ok (), { s with fs := alErase fp s.fs }) := by
      unfold removeFile
      rw [if_neg (by simp [hdir])]
      rcases half : alFind fp s.fs with _ | v
      · rw [half] at his
        cases his
      · rfl
    rw [hrm]
    exact ⟨_, rfl, rfl, rfl, alFind_alErase_self fp s.fs⟩

lemma process_download_body_ok (url : String) (resp : HttpResponse)
    (fp : String) (s : S) (hmsg : AllTrue s.msgOk) :
    ∃ s', process_download_body url resp fp s = (Except.ok (), s') ∧
      AllTrue s'.msgOk ∧ s'.store = s.store := by
  obtain ⟨b, sE, hdf, hEmsg, hEstore, hEfs⟩ := download_file_ok url resp fp s hmsg
  unfold process_download_body
  cases b with
  | false =>
    rw [bind_ok hdf]
    simp only [Bool.false_eq_true, if_false]
    rw [run_pure]
    exact ⟨sE, rfl, hEmsg, hEstore⟩
  | true =>
    have hsome := hEfs rfl
    rw [bind_ok hdf, if_pos rfl]
    have hub : ∃ sG, upload_block fp sE = (Except.ok (), sG) ∧
        AllTrue sG.msgOk ∧ sG.store = sE.store := by
      unfold upload_block
      rw [bind_ok (openRead_ok hsome)]
      have hmsgF : AllTrue ({ sE with openHandles := sE.openHandles + 1 } : S).msgOk :=
        hEmsg
      rw [bind_ok (tgAction_ok _ hmsgF), tgAction_ok _ (AllTrue_tail hmsgF)]
      exact ⟨_, rfl, AllTrue_tail (AllTrue_tail hmsgF), rfl⟩
    obtain ⟨sG, hub, hGmsg, hGstore⟩ := hub
    rw [pyTry_ok hub]
    exact ⟨sG, rfl, hGmsg, hGstore.trans hEstore⟩

lemma process_download_ok (url fn : String) (resp : HttpResponse) (s : S)
    (hmsg : AllTrue s.msgOk)
    (hdir : isDirEntry ("downloads/" ++ fn) = false) :
    ∃ s', process_download url fn resp s = (Except.ok (), s') ∧
      AllTrue s'.msgOk ∧ s'.store = s.store ∧
      alFind ("downloads/" ++ fn) s'.fs = none := by
  unfold process_download
  rcases h1 : tgSend "⏳ Preparing download..." s with ⟨r1, s1⟩
  have hval := h1
  rw [tgSend_ok _ s hmsg] at hval
  injection hval with hr1 hs1
  subst hr1
  have h1msg : AllTrue s1.msgOk := by
    rw [← hs1]
    exact AllTrue_tail hmsg
  have h1store : s1.store = s.store := by
    rw [← hs1]
  rw [bind_ok h1]
  obtain ⟨s2, hbody, h2msg, h2store⟩ :=
    process_download_body_ok url resp ("downloads/" ++ fn) s1 h1msg
  obtain ⟨s3, hfin, h3store, h3msg, h3none⟩ :=
    process_download_fin_ok ("downloads/" ++ fn) s2 hdir
  rw [pyTryFinally_ok_ok (pyTry_ok hbody) hfin]
  refine ⟨s3, rfl, ?_, ?_, h3none⟩
  · rw [h3msg]
    exact h2msg
  · rw [h3store, h2store, h1store]


/-! ## Handler-level lemmas -/

lemma store_tgSend (t : String) (s : S) : (tgSend t s).2.store = s.store := by
  obtain ⟨st, fs, w, oh, mo, se, ck⟩ := s
  rcases mo with _ | ⟨b, rest⟩
  · rfl
  · cases b <;> rfl

lemma store_tgAction (s : S) : (tgAction s).2.store = s.store := by
  obtain ⟨st, fs, w, oh, mo, se, ck⟩ := s
  rcases mo with _ | ⟨b, rest⟩
  · rfl
  · cases b <;> rfl

lemma findSession_run (c : String) (s : S) :
    findSession c s = (Except.ok (alFind c s.store), s) := rfl

lemma eraseSession_run (c : String) (s : S) :
    eraseSession c s = (Except.ok (), { s with store := alErase c s.store }) := rfl

lemma putSession_run (c : String) (v : Session) (s : S) :
    putSession c v s = (Except.ok (), { s with store := alInsert c v s.store }) := rfl

-- C3 amended, button flow
lemma button_default_cleanup (chatId : String) (sess : Session)
    (resp : HttpResponse) (s : S) (hmsg : AllTrue s.msgOk)
    (hfind : alFind chatId s.store = some sess)
    (hdir : isDirEntry ("downloads/" ++ sess.defaultFilename) = false) :
    ∃ s', button_callback chatId "default" resp s = (Except.ok (), s') ∧
      alFind chatId s'.store = none ∧
      alFind ("downloads/" ++ sess.defaultFilename) s'.fs = none := by
  unfold button_callback
  -- query.answer()
  rcases h1 : tgAction s with ⟨r1, s1⟩
  have hval := h1
  rw [tgAction_ok s hmsg] at hval
  injection hval with hr1 hs1
  subst hr1
  have h1msg : AllTrue s1.msgOk := by
    rw [← hs1]
    exact AllTrue_tail hmsg
  have h1store : s1.store = s.store := by rw [← hs1]
  rw [bind_ok h1, bind_ok (findSession_run chatId s1)]
  have hfind1 : alFind chatId s1.store = some sess := by rw [h1store, hfind]
  rw [hfind1]
  dsimp only
  rw [if_pos rfl]
  -- query.message.delete()
  rcases h2 : tgAction s1 with ⟨r2, s2⟩
  have hval2 := h2
  rw [tgAction_ok s1 h1msg] at hval2
  injection hval2 with hr2 hs2
  subst hr2
  have h2msg : AllTrue s2.msgOk := by
    rw [← hs2]
    exact AllTrue_tail h1msg
  have h2store : s2.store = s.store := by
    rw [← hs2]
    exact h1store
  rw [bind_ok h2]
  obtain ⟨s3, hpd, h3msg, h3store, h3none⟩ :=
    process_download_ok sess.url sess.defaultFilename resp s2 h2msg hdir
  rw [bind_ok hpd, eraseSession_run]
  refine ⟨_, rfl, ?_, h3none⟩
  exact alFind_alErase_self chatId s3.store

-- C3 amended, rename flow
lemma handle_filename_cleanup (chatId text : String) (sess : Session)
    (resp : HttpResponse) (s : S) (hmsg : AllTrue s.msgOk)
    (hfind : alFind chatId s.store = some sess)
    (hw : sess.waitingForName = true)
    (hne : sanitize_filename (pyStrip text) ≠ "")
    (hdir : isDirEntry ("downloads/" ++ sanitize_filename (pyStrip text)) = false) :
    ∃ s', handle_filename chatId text resp s = (Except.ok (), s') ∧
      alFind chatId s'.store = none ∧
      alFind ("downloads/" ++ sanitize_filename (pyStrip text)) s'.fs = none := by
  unfold handle_filename
  rw [bind_ok (findSession_run chatId s), hfind]
  dsimp only
  rw [hw]
  simp only [Bool.not_true, Bool.false_eq_true, if_false]
  rw [if_neg hne]
  obtain ⟨s3, hpd, h3msg, h3store, h3none⟩ :=
    process_download_ok sess.url (sanitize_filename (pyStrip text)) resp s hmsg hdir
  rw [bind_ok hpd, eraseSession_run]
  refine ⟨_, rfl, ?_, h3none⟩
  exact alFind_alErase_self chatId s3.store

-- C6: no-session behaviours
lemma button_no_session (chatId data : String) (resp : HttpResponse) (s : S)
    (hmsg : AllTrue s.msgOk) (hnone : alFind chatId s.store = none) :
    ∃ s', button_callback chatId data resp s = (Except.ok (), s') ∧
      s'.store = s.store ∧
      s'.sent = s.sent ++ ["Session expired. Please send the URL again."] := by
  unfold button_callback
  rcases h1 : tgAction s with ⟨r1, s1⟩
  have hval := h1
  rw [tgAction_ok s hmsg] at hval
  injection hval with hr1 hs1
  subst hr1
  have h1msg : AllTrue s1.msgOk := by
    rw [← hs1]
    exact AllTrue_tail hmsg
  have h1store : s1.store = s.store := by rw [← hs1]
  have h1sent : s1.sent = s.sent := by rw [← hs1]
  rw [bind_ok h1, bind_ok (findSession_run chatId s1)]
  have hfind1 : alFind chatId s1.store = none := by rw [h1store, hnone]
  rw [hfind1]
  dsimp only
  rw [tgSend_ok _ s1 h1msg]
  refine ⟨_, rfl, ?_, ?_⟩
  · exact h1store
  · rw [h1sent]

lemma handle_filename_no_session (chatId text : String) (resp : HttpResponse)
    (s : S) (hnone : alFind chatId s.store = none) :
    handle_filename chatId text resp s = (Except.ok (), s) := by
  unfold handle_filename
  rw [bind_ok (findSession_run chatId s), hnone]
  rfl

-- C9 / C5: the URL handler
lemma handle_url_valid (chatId text : String) (s : S)
    (hvalid : (strStartsWith (pyStrip text) "http://" ||
      strStartsWith (pyStrip text) "https://") = true) :
    ((handle_url chatId text) s).2.store =
      alInsert chatId
        { url := pyStrip text, defaultFilename := default_filename (pyStrip text),
          waitingForName := false } s.store := by
  unfold handle_url
  rw [hvalid]
  simp only [Bool.not_true, Bool.false_eq_true, if_false]
  rw [run_bind, putSession_run]
  exact store_tgSend _ _

lemma handle_url_invalid (chatId text : String) (s : S)
    (hmsg : AllTrue s.msgOk)
    (hinvalid : (strStartsWith (pyStrip text) "http://" ||
      strStartsWith (pyStrip text) "https://") = false) :
    ∃ s', handle_url chatId text s = (Except.ok (), s') ∧
      s'.store = s.store ∧
      s'.sent = s.sent ++ ["Please send a valid direct download URL."] := by
  unfold handle_url
  rw [hinvalid]
  simp only [Bool.not_false, if_true]
  rw [tgSend_ok _ s hmsg]
  exact ⟨_, rfl, rfl, rfl⟩

lemma pframe_process_download (url fn : String) (resp : HttpResponse)
    (hn : ∀ c ∈ fn.data, c ≠ '/') (s : S) :
    ∀ p ∈ ((process_download url fn resp) s).2.written,
      p ∈ s.written ∨ GoodNewPath p := by
  intro p hp
  rcases wframe_process_download url fn resp s p hp with h | ⟨hpeq, h1, h2, h3⟩
  · exact Or.inl h
  · right
    rw [basename_downloads fn hn] at h1 h2 h3
    exact ⟨fn, hpeq, hn, h1, h2, h3⟩

lemma written_eraseSession (c : String) (s : S) :
    ((eraseSession c) s).2.written = s.written := rfl

lemma written_setWaiting (c : String) (s : S) :
    ((setWaiting c) s).2.written = s.written := by
  unfold setWaiting
  rcases alFind c s.store with _ | v <;> rfl

lemma written_putSession (c : String) (v : Session) (s : S) :
    ((putSession c v) s).2.written = s.written := rfl

lemma handle_url_written (chatId text : String) (s : S) :
    ((handle_url chatId text) s).2.written = s.written := by
  have hP : FrameRel (fun a b => b.written = a.written) :=
    ⟨fun _ => rfl, fun _ _ _ h1 h2 => h2.trans h1⟩
  have h : Frame (fun a b => b.written = a.written) (handle_url chatId text) := by
    unfold handle_url
    apply frame_ite
    · exact fun u => written_tgSend _ u
    · apply frame_bind hP (fun u => (written_putSession _ _ u : _))
      intro _
      exact fun u => written_tgSend _ u
  exact h s

lemma button_callback_written (chatId data : String) (resp : HttpResponse)
    (s : S) (hstore : StoreNoSlash s.store) :
    ∀ p ∈ ((button_callback chatId data resp) s).2.written,
      p ∈ s.written ∨ GoodNewPath p := by
  unfold button_callback
  rcases h1 : tgAction s with ⟨r1, s1⟩
  have h1w : s1.written = s.written := by
    have := written_tgAction s
    rw [h1] at this
    exact this
  have h1store : s1.store = s.store := by
    have := store_tgAction s
    rw [h1] at this
    exact this
  cases r1 with
  | error e =>
    rw [bind_err h1]
    intro p hp
    rw [h1w] at hp
    exact Or.inl hp
  | ok u =>
    rw [bind_ok h1, bind_ok (findSession_run chatId s1)]
    rcases hfind : alFind chatId s1.store with _ | sess
    · dsimp only
      intro p hp
      have := written_tgSend "Session expired. Please send the URL again." s1
      rw [this, h1w] at hp
      exact Or.inl hp
    · dsimp only
      have hsess : ∀ c ∈ sess.defaultFilename.data, c ≠ '/' := by
        apply hstore (chatId, sess)
        apply mem_of_alFind
        rw [← h1store]
        exact hfind
      by_cases hd : data = "default"
      · rw [if_pos hd]
        rcases h2 : tgAction s1 with ⟨r2, s2⟩
        have h2w : s2.written = s1.written := by
          have := written_tgAction s1
          rw [h2] at this
          exact this
        cases r2 with
        | error e =>
          rw [bind_err h2]
          intro p hp
          rw [h2w, h1w] at hp
          exact Or.inl hp
        | ok u2 =>
          rw [bind_ok h2]
          rcases h3 : process_download sess.url sess.defaultFilename resp s2 with ⟨r3, s3⟩
          have h3w : ∀ p ∈ s3.written, p ∈ s2.written ∨ GoodNewPath p := by
            have := pframe_process_download sess.url sess.defaultFilename resp hsess s2
            rw [h3] at this
            exact this
          cases r3 with
          | error e =>
            rw [bind_err h3]
            intro p hp
            rcases h3w p hp with h | h
            · rw [h2w, h1w] at h
              exact Or.inl h
            · exact Or.inr h
          | ok u3 =>
            rw [bind_ok h3, eraseSession_run]
            intro p hp
            rcases h3w p hp with h | h
            · rw [h2w, h1w] at h
              exact Or.inl h
            · exact Or.inr h
      · rw [if_neg hd]
        by_cases hr : data = "rename"
        · rw [if_pos hr]
          rcases h2 : tgAction s1 with ⟨r2, s2⟩
          have h2w : s2.written = s1.written := by
            have := written_tgAction s1
            rw [h2] at this
            exact this
          cases r2 with
          | error e =>
            rw [bind_err h2]
            intro p hp
            rw [h2w, h1w] at hp
            exact Or.inl hp
          | ok u2 =>
            rw [bind_ok h2, bind_ok (show setWaiting chatId s2 =
              (Except.ok (), ((setWaiting chatId) s2).2) from ?_)]
            · intro p hp
              have hws := written_tgSend
                (toString "Current name: " ++ toString sess.defaultFilename ++
                  toString "\nSend me the new name for this file:") ((setWaiting chatId) s2).2
              rw [hws, written_setWaiting, h2w, h1w] at hp
              exact Or.inl hp
            · unfold setWaiting
              rcases alFind chatId s2.store with _ | v <;> rfl
        · rw [if_neg hr, run_pure]
          intro p hp
          rw [h1w] at hp
          exact Or.inl hp

lemma handle_filename_written (chatId text : String) (resp : HttpResponse)
    (s : S) :
    ∀ p ∈ ((handle_filename chatId text resp) s).2.written,
      p ∈ s.written ∨ GoodNewPath p := by
  unfold handle_filename
  rw [bind_ok (findSession_run chatId s)]
  rcases hfind : alFind chatId s.store with _ | sess
  · exact fun p hp => Or.inl hp
  · dsimp only
    by_cases hw : (!sess.waitingForName) = true
    · rw [if_pos hw, run_pure]
      exact fun p hp => Or.inl hp
    · rw [if_neg hw]
      by_cases hne : sanitize_filename (pyStrip text) = ""
      · rw [if_pos hne]
        intro p hp
        rw [written_tgSend] at hp
        exact Or.inl hp
      · rw [if_neg hne]
        rcases h3 : process_download sess.url (sanitize_filename (pyStrip text)) resp s with ⟨r3, s3⟩
        have h3w : ∀ p ∈ s3.written, p ∈ s.written ∨ GoodNewPath p := by
          have := pframe_process_download sess.url (sanitize_filename (pyStrip text)) resp
            (sanitize_no_slash (pyStrip text)) s
          rw [h3] at this
          exact this
        cases r3 with
        | error e =>
          rw [bind_err h3]
          exact h3w
        | ok u3 =>
          rw [bind_ok h3, eraseSession_run]
          exact h3w

lemma handle_url_storeNoSlash (chatId text : String) (s : S)
    (h : StoreNoSlash s.store) :
    StoreNoSlash ((handle_url chatId text) s).2.store := by
  unfold handle_url
  by_cases hc : (strStartsWith (pyStrip text) "http://" ||
      strStartsWith (pyStrip text) "https://") = true
  · rw [hc]
    simp only [Bool.not_true, Bool.false_eq_true, if_false]
    rw [run_bind, putSession_run]
    intro e he c hc2
    rw [store_tgSend] at he
    simp only [alInsert, List.mem_cons] at he
    rcases he with he | he
    · subst he
      exact default_filename_no_slash (pyStrip text) c hc2
    · exact h e (List.mem_of_mem_filter he) c hc2
  · have hc' : (strStartsWith (pyStrip text) "http://" ||
        strStartsWith (pyStrip text) "https://") = false := by
      revert hc
      cases (strStartsWith (pyStrip text) "http://" ||
        strStartsWith (pyStrip text) "https://") <;> simp
    rw [hc']
    simp only [Bool.not_false, if_true]
    intro e he
    rw [store_tgSend] at he
    exact h e he


/-! ## Lemmas: create_progress_bar length -/

lemma create_progress_bar_length_eq (c t : ℚ) (len : ℕ) :
    (create_progress_bar c t len).length =
      (pyInt ((len : ℚ) * c / t)).toNat +
        ((len : ℤ) - pyInt ((len : ℚ) * c / t)).toNat := by
  rw [create_progress_bar, String.length_append, pyStrRepeat_length,
    pyStrRepeat_length]
  have h1 : "■".length = 1 := by decide
  have h2 : "□".length = 1 := by decide
  rw [h1, h2]
  ring

/-! ## Claim theorems -/

/-- Claim C1 (code bug): the declared-length size bound is never
enforced. A 200 response declaring 5 000 000 000 bytes — more than
`TG_MAX_FILE_SIZE` and far above the documented 2 GiB limit — is not
rejected: `download_file` opens the destination file, streams the body
chunk to it, reports success, and leaves the file on disk holding the
chunk's bytes, contradicting the claim that the download aborts before
any body byte is written and that no file is created. -/
theorem C1_size_limit_not_enforced :
    TG_MAX_FILE_SIZE < 5000000000 ∧
    resBool ((download_file "http://x/big.bin" resp_big "downloads/big.bin") s_clock2)
      = some true ∧
    alFind "downloads/big.bin"
      ((download_file "http://x/big.bin" resp_big "downloads/big.bin") s_clock2).2.fs
      = some 8192 ∧
    ((download_file "http://x/big.bin" resp_big "downloads/big.bin") s_clock2).2.written
      = ["downloads/big.bin"] := by
  refine ⟨by norm_num [TG_MAX_FILE_SIZE], ?_, ?_, ?_⟩ <;> decide

set_option maxRecDepth 8000 in
/-- Claim C2, counterexample: the filename pipeline never truncates. A
256-character alphanumeric rename input sanitizes to itself — accepted
by the handler since non-empty — with length 256, refuting the claimed
255-character bound. -/
theorem C2_counterexample :
    sanitize_filename aaa256 ≠ "" ∧
    ¬ ((sanitize_filename aaa256).length ≤ 255) := by
  constructor <;> decide

/-- Claim C2, amended: the sanitizer's output consists only of allowed
characters (alphanumerics, period, underscore, hyphen, space), and the
default name derived from a URL is never empty; no truncation to 255
characters is performed, and the default name is not sanitized. -/
theorem C2_sanitizer_allowed_chars (t u : String) :
    (sanitize_filename t).data.all allowedChar = true ∧
    default_filename u ≠ "" := by
  constructor
  · exact List.all_eq_true.mpr (sanitize_allowed t)
  · exact default_filename_ne_empty u

/-- Claim C2, witness: the amended statement at a concrete rename text
and URL. -/
theorem C2_witness :
    (sanitize_filename "my report!!.pdf").data.all allowedChar = true ∧
    default_filename "http://x/" ≠ "" :=
  C2_sanitizer_allowed_chars "my report!!.pdf" "http://x/"

/-- Claim C3, counterexample: renaming the file to ".." makes the
cleanup `os.remove('downloads/..')` in the `finally` block raise
`IsADirectoryError`; the exception escapes `process_download`, the
`del user_data[chat_id]` after it is skipped, and the session survives
the completed transfer attempt — refuting the claim that the session
store is always left without an entry. -/
theorem C3_counterexample :
    resOk ((handle_filename "c" ".." resp_empty) s_wait) = false ∧
    resErr ((handle_filename "c" ".." resp_empty) s_wait) = some "IsADirectoryError" ∧
    alFind "c" ((handle_filename "c" ".." resp_empty) s_wait).2.store = some sess_wait := by
  refine ⟨?_, ?_, ?_⟩ <;> decide

/-- Claim C3, amended: when no Telegram call fails and the resolved
filename is an actual file name (its path's final component is neither
"." nor ".."), both transfer entry points — the "use default" button
and the rename text — finish without an uncaught exception, delete the
chat's session entry, and leave no temporary file on disk. -/
theorem C3_cleanup_on_success (chatId text : String) (sess : Session)
    (resp : HttpResponse) (s : S) (hmsg : AllTrue s.msgOk)
    (hfind : alFind chatId s.store = some sess) :
    (isDirEntry ("downloads/" ++ sess.defaultFilename) = false →
      ∃ s', button_callback chatId "default" resp s = (Except.ok (), s') ∧
        alFind chatId s'.store = none ∧
        alFind ("downloads/" ++ sess.defaultFilename) s'.fs = none) ∧
    (sess.waitingForName = true →
      sanitize_filename (pyStrip text) ≠ "" →
      isDirEntry ("downloads/" ++ sanitize_filename (pyStrip text)) = false →
      ∃ s', handle_filename chatId text resp s = (Except.ok (), s') ∧
        alFind chatId s'.store = none ∧
        alFind ("downloads/" ++ sanitize_filename (pyStrip text)) s'.fs = none) :=
  ⟨fun hdir => button_default_cleanup chatId sess resp s hmsg hfind hdir,
    fun hw hne hdir =>
      handle_filename_cleanup chatId text sess resp s hmsg hfind hw hne hdir⟩

/-- Claim C3, witness: the button flow at a concrete pending session
and response. -/
theorem C3_witness :
    ∃ s', button_callback "c" "default" resp_small s_choice = (Except.ok (), s') ∧
      alFind "c" s'.store = none ∧
      alFind ("downloads/" ++ sess_idle.defaultFilename) s'.fs = none :=
  (C3_cleanup_on_success "c" "x" sess_idle resp_small s_choice (by decide)
    (by decide)).1 (by decide)

/-- Claim C4 (code bug): when the response carries no content length,
the progress computation divides the byte count by zero on the first
chunk. The resulting `ZeroDivisionError` is caught by the download's
blanket handler, which reports a generic download error and aborts the
transfer — no indeterminate progress is ever displayed, contradicting
the claim that no division fault occurs. -/
theorem C4_zero_total_division_fault :
    resp_nolen.contentLength = none ∧
    resBool ((download_file "http://x/f" resp_nolen "downloads/f") s_tick) = some false ∧
    "Download error: ZeroDivisionError" ∈
      ((download_file "http://x/f" resp_nolen "downloads/f") s_tick).2.sent := by
  refine ⟨rfl, ?_, ?_⟩ <;> decide

/-- Claim C5, counterexample: the handler validates nothing beyond the
scheme. The text "http:///a" — whose host component is empty — passes
the startswith check and a session is created, refuting the claim that
a session is created only for URLs with a non-empty host. -/
theorem C5_counterexample :
    alFind "c" ((handle_url "c" "http:///a") s_empty).2.store =
      some ⟨"http:///a", "a", false⟩ ∧
    urlNetloc "http:///a" = "" := by
  constructor <;> decide

/-- Claim C5, amended: a session is created exactly when the stripped
text starts with "http://" or "https://" — no host or length check is
made; any other text draws the rejection reply and leaves the store
unchanged. -/
theorem C5_scheme_check_only (chatId text : String) (s : S)
    (hmsg : AllTrue s.msgOk) :
    ((strStartsWith (pyStrip text) "http://" ||
        strStartsWith (pyStrip text) "https://") = true →
      alFind chatId ((handle_url chatId text) s).2.store =
        some { url := pyStrip text,
               defaultFilename := default_filename (pyStrip text),
               waitingForName := false }) ∧
    ((strStartsWith (pyStrip text) "http://" ||
        strStartsWith (pyStrip text) "https://") = false →
      ∃ s', handle_url chatId text s = (Except.ok (), s') ∧
        s'.store = s.store ∧
        s'.sent = s.sent ++ ["Please send a valid direct download URL."]) := by
  constructor
  · intro hvalid
    rw [handle_url_valid chatId text s hvalid]
    exact alFind_alInsert_self chatId _ s.store
  · intro hinvalid
    exact handle_url_invalid chatId text s hmsg hinvalid

/-- Claim C5, witness: a non-URL text is rejected with the store
unchanged. -/
theorem C5_witness :
    ∃ s', handle_url "c" "report.pdf" s_empty = (Except.ok (), s') ∧
      s'.store = s_empty.store ∧
      s'.sent = s_empty.sent ++ ["Please send a valid direct download URL."] :=
  (C5_scheme_check_only "c" "report.pdf" s_empty (by decide)).2 (by decide)

/-- Claim C6, counterexample: a rename text arriving with no session is
ignored silently — the world is returned unchanged and no reply
whatsoever is sent, refuting the claim that the user is told the
session expired. -/
theorem C6_counterexample :
    resOk ((handle_filename "c" "newname" resp_empty) s_empty) = true ∧
    ((handle_filename "c" "newname" resp_empty) s_empty).2 = s_empty ∧
    s_empty.sent = [] := by
  refine ⟨?_, ?_, ?_⟩ <;> decide

/-- Claim C6, amended: with no session for the chat, a button press
draws the session-expired reply with the store unchanged and no
exception, while a rename text is silently ignored — the handler
returns with the entire world unchanged and no reply. -/
theorem C6_no_session_handling (chatId data text : String)
    (resp : HttpResponse) (s : S) (hmsg : AllTrue s.msgOk)
    (hnone : alFind chatId s.store = none) :
    (∃ s', button_callback chatId data resp s = (Except.ok (), s') ∧
      s'.store = s.store ∧
      s'.sent = s.sent ++ ["Session expired. Please send the URL again."]) ∧
    handle_filename chatId text resp s = (Except.ok (), s) :=
  ⟨button_no_session chatId data resp s hmsg hnone,
    handle_filename_no_session chatId text resp s hnone⟩

/-- Claim C6, witness: the no-session behaviours at a concrete empty
store. -/
theorem C6_witness :
    (∃ s', button_callback "c" "rename" resp_empty s_empty = (Except.ok (), s') ∧
      s'.store = s_empty.store ∧
      s'.sent = s_empty.sent ++ ["Session expired. Please send the URL again."]) ∧
    handle_filename "c" "name1" resp_empty s_empty = (Except.ok (), s_empty) :=
  C6_no_session_handling "c" "rename" "name1" resp_empty s_empty (by decide)
    (by decide)

/-- Claim C7, counterexample: the percentage is not clamped and the bar
is not fixed at ten segments. At fifteen bytes done of a declared ten,
the formula yields 150 and the rendered bar has fifteen filled segments
and no empty ones — Python's negative string repetition yields the
empty string — refuting both the clamping and the fixed width. -/
theorem C7_counterexample :
    ((15 : ℚ) / 10 * 100 = 150) ∧
    ¬ ((15 : ℚ) / 10 * 100 ≤ 100) ∧
    (progress_bar ((15 : ℚ) / 10 * 100)).length = 15 ∧
    (create_progress_bar 15 10 10).length = 15 := by
  have h150 : (15 : ℚ) / 10 * 100 = 150 := by norm_num
  have hfl : filled_length 150 = 15 := by
    rw [filled_length, pyInt_of_nonneg (by norm_num)]
    norm_num
  refine ⟨h150, by norm_num, ?_, ?_⟩
  · rw [h150, progress_bar_length_eq, hfl]
    decide
  · rw [create_progress_bar]
    have hpi : pyInt (((10 : ℕ) : ℚ) * 15 / 10) = 15 := by
      rw [pyInt_of_nonneg (by norm_num)]
      norm_num
    rw [hpi, String.length_append, pyStrRepeat_length, pyStrRepeat_length]
    decide

/-- Claim C7, amended: the rendered percentage is the unclamped value
of bytesDone divided by bytesTotal times 100. Whenever bytesDone is at
most bytesTotal the percentage lies in the unit range times 100, the
bar has exactly ten segments and its filled count is the floor of a
tenth of the percentage; in general the bar has the maximum of ten and
the filled count segments, so it grows beyond ten when bytesDone
sufficiently exceeds bytesTotal. -/
theorem C7_progress_formula (d t : ℚ) (ht : 0 < t) (hd : 0 ≤ d) :
    (d ≤ t →
      0 ≤ d / t * 100 ∧ d / t * 100 ≤ 100 ∧
      (progress_bar (d / t * 100)).length = 10 ∧
      filled_length (d / t * 100) = ⌊d / t * 100 / 10⌋ ∧
      (create_progress_bar d t 10).length = 10) ∧
    (progress_bar (d / t * 100)).length =
      max 10 (filled_length (d / t * 100)).toNat := by
  have hpct0 : 0 ≤ d / t * 100 := by positivity
  constructor
  · intro hdt
    have hpct100 : d / t * 100 ≤ 100 := by
      have h1 : d / t ≤ 1 := (div_le_one ht).mpr hdt
      nlinarith
    obtain ⟨hf0, hf10⟩ := filled_length_bounds hpct0 hpct100
    refine ⟨hpct0, hpct100, ?_, ?_, ?_⟩
    · rw [progress_bar_length_eq]
      omega
    · rw [filled_length, pyInt_of_nonneg (by positivity)]
    · rw [create_progress_bar_length_eq]
      have hx0 : (0 : ℚ) ≤ ((10 : ℕ) : ℚ) * d / t := by positivity
      have hx10 : ((10 : ℕ) : ℚ) * d / t ≤ 10 := by
        rw [div_le_iff₀ ht]
        push_cast
        nlinarith
      have hpi : pyInt (((10 : ℕ) : ℚ) * d / t) = ⌊((10 : ℕ) : ℚ) * d / t⌋ :=
        pyInt_of_nonneg hx0
      have h0 : 0 ≤ ⌊((10 : ℕ) : ℚ) * d / t⌋ := Int.floor_nonneg.mpr hx0
      have h10 : ⌊((10 : ℕ) : ℚ) * d / t⌋ ≤ 10 := by
        calc ⌊((10 : ℕ) : ℚ) * d / t⌋ ≤ ⌊(10 : ℚ)⌋ := Int.floor_le_floor hx10
        _ = 10 := by norm_num
      rw [hpi]
      omega
  · exact progress_bar_length_max _ hpct0

/-- Claim C7, witness: the in-range behaviour at five bytes of ten. -/
theorem C7_witness :
    0 ≤ (5 : ℚ) / 10 * 100 ∧ (5 : ℚ) / 10 * 100 ≤ 100 ∧
    (progress_bar ((5 : ℚ) / 10 * 100)).length = 10 ∧
    filled_length ((5 : ℚ) / 10 * 100) = ⌊(5 : ℚ) / 10 * 100 / 10⌋ ∧
    (create_progress_bar 5 10 10).length = 10 :=
  (C7_progress_formula 5 10 (by norm_num) (by norm_num)).1 (by norm_num)

/-- Claim C8, counterexample: the function-based revision passes
`open(file_path, 'rb')` inline to `reply_document` and never explicitly
closes it — after a fully successful transfer, one read handle remains
unreleased, refuting the claim that the handle is released on every
exit path in both revisions. -/
theorem C8_counterexample :
    s_clock2.openHandles = 0 ∧
    ((process_download "http://x/f.bin" "f.bin" resp_small) s_clock2).2.openHandles = 1 := by
  constructor <;> decide

/-- Claim C8, amended: the class-based revision acquires the upload
handle inside a `with open` block, so on every exit of
`download_and_send` — success, download failure, upload failure, or any
raised exception — the net count of unreleased read handles is
unchanged. -/
theorem C8_handle_released_udb (url fn : String) (resp : HttpResponse) (s : S) :
    ((udb_download_and_send url fn resp) s).2.openHandles = s.openHandles :=
  hframe_udb_download_and_send url fn resp s

/-- Claim C9: a valid URL message replaces the chat's session wholesale
with a fresh one — URL and default filename recomputed, the
rename-wait flag cleared — leaves every other chat's session untouched,
and keeps the store free of duplicate chat keys, so at most one session
per chat ever exists and a stale rename prompt cannot consume the next
text message. -/
theorem C9_new_url_replaces_session (chatId text : String) (s : S)
    (hvalid : (strStartsWith (pyStrip text) "http://" ||
      strStartsWith (pyStrip text) "https://") = true)
    (hnodup : (s.store.map Prod.fst).Nodup) :
    alFind chatId ((handle_url chatId text) s).2.store =
      some { url := pyStrip text,
             defaultFilename := default_filename (pyStrip text),
             waitingForName := false } ∧
    (∀ k, k ≠ chatId →
      alFind k ((handle_url chatId text) s).2.store = alFind k s.store) ∧
    ((((handle_url chatId text) s).2.store.map Prod.fst)).Nodup := by
  rw [handle_url_valid chatId text s hvalid]
  refine ⟨alFind_alInsert_self chatId _ s.store, ?_, ?_⟩
  · intro k hk
    exact alFind_alInsert_ne k chatId _ s.store hk
  · exact keysNodup_alInsert chatId _ s.store hnodup

/-- Claim C9, witness: a fresh URL supersedes a session stuck in the
rename-wait state. -/
theorem C9_witness :
    alFind "c" ((handle_url "c" "http://x/a.pdf") s_wait).2.store =
      some { url := pyStrip "http://x/a.pdf",
             defaultFilename := default_filename (pyStrip "http://x/a.pdf"),
             waitingForName := false } ∧
    (∀ k, k ≠ "c" →
      alFind k ((handle_url "c" "http://x/a.pdf") s_wait).2.store =
        alFind k s_wait.store) ∧
    ((((handle_url "c" "http://x/a.pdf") s_wait).2.store.map Prod.fst)).Nodup :=
  C9_new_url_replaces_session "c" "http://x/a.pdf" s_wait (by decide) (by decide)

/-- Claim C10: no user input can make the bot write outside the
downloads directory. The sanitizer's output and the URL-derived default
name never contain a path separator and the default is non-empty; and
along every run of the three handlers — for any oracle, response and
state — each path newly appended to the write log is of the form
"downloads/" followed by a separator-free, non-empty name other than
"." and "..", i.e. a direct child of the downloads directory. The
store hypothesis of the button flow (every stored default filename is
separator-free) is itself maintained by the URL handler, which opens no
file at all. -/
theorem C10_no_path_traversal :
    (∀ t : String, ∀ c ∈ (sanitize_filename t).data, c ≠ '/') ∧
    (∀ u : String, (∀ c ∈ (default_filename u).data, c ≠ '/') ∧
      default_filename u ≠ "") ∧
    (∀ (chatId data : String) (resp : HttpResponse) (s : S),
      StoreNoSlash s.store →
      ∀ p ∈ ((button_callback chatId data resp) s).2.written,
        p ∈ s.written ∨ GoodNewPath p) ∧
    (∀ (chatId text : String) (resp : HttpResponse) (s : S),
      ∀ p ∈ ((handle_filename chatId text resp) s).2.written,
        p ∈ s.written ∨ GoodNewPath p) ∧
    (∀ (chatId text : String) (s : S),
      ((handle_url chatId text) s).2.written = s.written ∧
      (StoreNoSlash s.store →
        StoreNoSlash ((handle_url chatId text) s).2.store)) :=
  ⟨sanitize_no_slash,
    fun u => ⟨default_filename_no_slash u, default_filename_ne_empty u⟩,
    button_callback_written,
    handle_filename_written,
    fun chatId text s =>
      ⟨handle_url_written chatId text s, handle_url_storeNoSlash chatId text s⟩⟩

/-- Claim C10, witness: the path written by a concrete successful
transfer is a direct child of the downloads directory. -/
theorem C10_witness :
    "downloads/a" ∈ s_choice.written ∨ GoodNewPath "downloads/a" := by
  have h := C10_no_path_traversal.2.2.1 "c" "default" resp_small s_choice
    (by decide)
  exact h "downloads/a" (by decide)


end UrlBot
